import Mathlib

/-!
# PRIME offload selection of `cmd/vinegar/prime.go`

A shallow embedding of the four functions of `prime.go` (`ChooseCard`,
`GetSystemCards`, `PrimeIsAllowed`, `SetupPrimeOffload`) together with the
library calls they rely on, followed by the properties established about them.

Conventions of the embedding:

* Go strings are Lean strings, processed through their character lists.
* A Go `map[string]T` is the list of its entries; `mapGet` is the lookup and
  `mapSet` the assignment `m[k] = v`.
* The slice `[]*Card` is the list of the records its pointers refer to.  Every
  pointer of the slice is obtained from `new(Card)` right before it is appended,
  so the pointer stored at position `k` is identified with `k`; the identifier
  index therefore maps an identifier to a position of the list.
* The visible effects of a run (lines written with `log.Printf` and writes to
  the caller's environment map) are collected in a trace; a run ends by
  returning, by `os.Exit`, or by a run-time panic.
* `int` is 64 bits wide.
-/

namespace Vinegar

/-! ## Go maps -/

/-- Lookup `m[k]` of a Go map together with its presence flag. -/
def mapGet {β : Type} (m : List (String × β)) (k : String) : Option β :=
  m.lookup k

/-- The assignment `m[k] = v` of a Go map. -/
def mapSet {β : Type} (m : List (String × β)) (k : String) (v : β) : List (String × β) :=
  (k, v) :: m.filter (fun e => e.1 != k)

/-! ## Library functions on strings -/

/-- Go `strings.HasSuffix`. -/
def HasSuffix (s suffix : String) : Bool :=
  suffix.data.isSuffixOf s.data

/-- Go `strings.HasPrefix`. -/
def HasPrefix (s pre : String) : Bool :=
  pre.data.isPrefixOf s.data

/-- Go `strings.CutPrefix`, first component: `s` without the leading `pre` when it
starts with it, and `s` itself otherwise. -/
def CutPrefix (s pre : String) : String :=
  if HasPrefix s pre then String.mk (s.data.drop pre.data.length) else s

/-- Go `strings.Contains`. -/
def Contains (s substr : String) : Bool :=
  s.data.tails.any (fun t => substr.data.isPrefixOf t)

/-- Go `unicode.ToLower`: a rune of the ASCII range is lowered when it is a letter
`A` to `Z` and kept otherwise; any other rune is mapped through the case table of
the Unicode library, `table`. -/
def unicodeToLower (table : Char → Char) (c : Char) : Char :=
  if c.toNat ≤ 127 then c.toLower else table c

/-- Go `strings.ToLower`: the text mapped rune by rune through `unicode.ToLower`.
The shortcut the library takes on a text of ASCII characters, lowering the
letters `A` to `Z` only, computes the same text, as `unicode.ToLower` does just
that on ASCII. -/
def ToLower (table : Char → Char) (s : String) : String :=
  String.mk (s.data.map (unicodeToLower table))

/-- Go `strings.ReplaceAll s old new` for a one-character `old`. -/
def ReplaceAll (s : String) (old : Char) (new : String) : String :=
  String.mk (s.data.flatMap (fun c => if c = old then new.data else [c]))

/-- Value of a run of decimal digits. -/
def digitsValue (ds : List Char) : Nat :=
  ds.foldl (fun acc c => acc * 10 + (c.toNat - 48)) 0

/-- Go `strconv.Atoi` with the error discarded: an optional sign followed by at
least one decimal digit gives the number, clamped to the range of `int`; any
other text gives `0`. -/
def Atoi (s : String) : Int :=
  let signed : Bool × List Char :=
    match s.data with
    | '+' :: r => (false, r)
    | '-' :: r => (true, r)
    | r => (false, r)
  if signed.2 ≠ [] ∧ signed.2.all Char.isDigit = true then
    let n := digitsValue signed.2
    if signed.1 then
      (if n > 2 ^ 63 then -(2 ^ 63 : Int) else -(n : Int))
    else
      (if n ≥ 2 ^ 63 then (2 ^ 63 - 1 : Int) else (n : Int))
  else 0

/-! ## Library functions on paths -/

/-- Components of a path between its slashes. -/
def splitSlash : List Char → List (List Char)
  | [] => [[]]
  | c :: cs =>
    if c = '/' then [] :: splitSlash cs
    else
      match splitSlash cs with
      | [] => [[c]]
      | h :: t => (c :: h) :: t

/-- One component of Go `path.Clean`; the components kept so far are held
innermost first. -/
def cleanStep (rooted : Bool) (kept : List (List Char)) (comp : List Char) : List (List Char) :=
  if comp = [] ∨ comp = ['.'] then kept
  else if comp = ['.', '.'] then
    match kept with
    | [] => if rooted then [] else [comp]
    | top :: rest => if top = ['.', '.'] then comp :: kept else rest
  else comp :: kept

/-- Go `path.Clean`. -/
def Clean (p : String) : String :=
  if p.data = [] then "."
  else
    let rooted : Bool := p.data.head? = some '/'
    let kept := ((splitSlash p.data).foldl (cleanStep rooted) []).reverse
    let body := List.intercalate ['/'] kept
    if rooted then String.mk ('/' :: body)
    else if body = [] then "." else String.mk body

/-- Go `path.Join` (and `filepath.Join` on Linux): empty elements are ignored and
the result is cleaned; with no non-empty element the result is empty. -/
def Join (elems : List String) : String :=
  match elems.filter (fun e => e.data ≠ []) with
  | [] => ""
  | es => Clean (String.mk (List.intercalate ['/'] (es.map String.data)))

/-! ## The two regular expressions of the probe -/

/-- Longest run of ASCII digits at the end of a text. -/
def trailingDigits (s : List Char) : List Char :=
  (s.reverse.takeWhile Char.isDigit).reverse

/-- What precedes the longest run of ASCII digits at the end of a text. -/
def beforeTrailingDigits (s : List Char) : List Char :=
  (s.reverse.dropWhile Char.isDigit).reverse

/-- The text `s` without its ending `suffix`, when it ends with it. -/
def dropSuffix? (s suffix : List Char) : Option (List Char) :=
  if suffix.isSuffixOf s then some (s.take (s.length - suffix.length)) else none

/-- Result of `FindStringSubmatch` for `card([0-9]+)$`: the whole match and the
captured group.  The expression is not anchored on the left; as `d` is not a
digit, the group of the only possible match is the longest run of digits at the
end of the name, and it has to be preceded by `card`. -/
def cardPattern (name : String) : Option (String × String) :=
  let ds := trailingDigits name.data
  match dropSuffix? (beforeTrailingDigits name.data) "card".data with
  | some _ => if ds = [] then none else some (String.mk ("card".data ++ ds), String.mk ds)
  | none => none

/-- Result of `FindStringSubmatch` for `card([0-9]+)-eDP-[0-9]+$`: the whole match
and the captured group. -/
def eDPPattern (name : String) : Option (String × String) :=
  let ms := trailingDigits name.data
  match dropSuffix? (beforeTrailingDigits name.data) "-eDP-".data with
  | none => none
  | some front =>
    let ns := trailingDigits front
    match dropSuffix? (beforeTrailingDigits front) "card".data with
    | none => none
    | some _ =>
      if ms = [] ∨ ns = [] then none
      else some (String.mk ("card".data ++ ns ++ "-eDP-".data ++ ms), String.mk ns)

/-! ## Data model -/

/-- The record `Card` of `prime.go`. -/
structure Card where
  path : String
  eDP : Bool
  id : String
  deriving DecidableEq, Repr

/-- The zero value produced by `new(Card)`. -/
instance : Inhabited Card := ⟨⟨"", false, ""⟩⟩

/-- Go `map[string]string`. -/
abbrev Environment := List (String × String)

/-- Modelled from the spec: the launch configuration `config.Binary` is declared
in the package `internal/config`, which is not among the sources.  It holds
the mutable mapping of environment-variable names to values, the flag of the
translation layer, the renderer indicator and the forced-GPU directive, which are
the four fields `prime.go` reads; `rest` stands for every other field of the
record, none of which `prime.go` mentions.  The mapping is the mutable one the
caller has to supply, so it is never the nil map. -/
structure Binary (Rest : Type) where
  Env : Environment
  Dxvk : Bool
  Renderer : String
  ForcedGpu : String
  rest : Rest
  deriving DecidableEq

/-- What the program takes from the host it runs on: the part of the file system
it reads, and the case table of the Unicode library it is linked with.  A failed
read yields the zero value, as the program discards every error of these
calls. -/
structure SysFs where
  /-- Names returned by `os.ReadDir`, in listing order. -/
  readDir : String → List String
  /-- Content returned by `os.ReadFile`. -/
  readFile : String → String
  /-- Path returned by `filepath.EvalSymlinks`. -/
  evalSymlinks : String → String
  /-- Lower-case mapping of the Unicode tables for the runes outside ASCII, which
  `unicode.ToLower` consults. -/
  caseTable : Char → Char

/-- Visible effects of a run: the lines written with `log.Printf`, one constructor
for each call site, and the writes to the environment map. -/
inductive Event where
  /-- Line `bcfg.Env: %v` -/
  | logEnv (env : Environment)
  /-- Line `Warning: env var %s is already defined. Will not redefine it.` -/
  | logAlreadyDefined (k : String)
  /-- The write `bcfg.Env[k] = v` -/
  | envSet (k v : String)
  /-- Line `Chose card %s (%s).` -/
  | logChoseCard (path id : String)
  /-- Line `Number of cards is equal or below 1. Skipping prime logic.` -/
  | logFewCards
  /-- Line `System has %d cards and OpenGL is not capable of choosing the right one.` -/
  | logManyCardsOpenGL (n : Nat)
  /-- Line `To fix this, use the Vulkan renderer instead or choose the right GPU ...` -/
  | logUseVulkan
  /-- Line `Aborting...` -/
  | logAborting
  /-- Line `System has %d cards. Skipping prime logic and leaving card selection up to Vulkan.` -/
  | logManyCardsVulkan (n : Nat)
  /-- Line `card0 has no eDP. This machine is not a laptop. Skipping prime logic.` -/
  | logNoEDP
  /-- Line `ForcedGpu option is empty. Skipping prime logic...` -/
  | logForcedGpuEmpty
  /-- Line `No gpu with the vid:nid "%s". Aborting.` -/
  | logNoSuchId (s : String)
  /-- Line `index %d of ForcedGpu does not exist. Aborting.` -/
  | logNoSuchIndex (i : Int)
  deriving DecidableEq

/-- How a call ends. -/
inductive Outcome (α : Type) where
  /-- The call returns a value. -/
  | returned (a : α)
  /-- The process ends through `os.Exit code`. -/
  | exited (code : Nat)
  /-- The run-time panic `index out of range [i] with length n`. -/
  | panicked (i : Int) (n : Nat)
  deriving DecidableEq

/-- A run: its effects in order, and how it ends. -/
structure Run (α : Type) where
  trace : List Event
  out : Outcome α
  deriving DecidableEq

/-! ## Device Selector -/

/-- The closure `setIfUndefined` of `ChooseCard`, on the current content of the
environment map: the new content and the effects. -/
def setIfUndefined (env : Environment) (k v : String) : Environment × List Event :=
  match mapGet env k with
  | some _ => (env, [Event.logEnv env, Event.logAlreadyDefined k])
  | none => (mapSet env k v, [Event.logEnv env, Event.envSet k v])

/-- The function `ChooseCard`: the returned configuration and the effects. -/
def ChooseCard {Rest : Type} (fs : SysFs) (bcfg : Binary Rest) (c : Card) :
    Binary Rest × List Event :=
  let s1 := setIfUndefined bcfg.Env "MESA_VK_DEVICE_SELECT_FORCE_DEFAULT_DEVICE" "1"
  let s2 := setIfUndefined s1.1 "DRI_PRIME" c.id
  let driverPath := fs.evalSymlinks (Join [c.path, "device/driver"])
  let s3 :=
    if HasSuffix driverPath "nvidia" then
      setIfUndefined s2.1 "__GLX_VENDOR_LIBRARY_NAME" "nvidia"
    else
      setIfUndefined s2.1 "__GLX_VENDOR_LIBRARY_NAME" "mesa"
  ({ bcfg with Env := s3.1 }, s1.2 ++ s2.2 ++ s3.2 ++ [Event.logChoseCard c.path c.id])

/-! ## Device Prober -/

/-- The directory scanned by the probe. -/
def drmPath : String := "/sys/class/drm"

/-- The two results of `GetSystemCards` while they are built: the records of the
slice `cards`, and the identifier index, whose values are positions of `cards`. -/
structure Probe where
  cards : List Card
  idDict : List (String × Nat)
  deriving DecidableEq

/-- Body of the loop of `GetSystemCards` for one directory entry. -/
def probeEntry (fs : SysFs) (s : Probe) (name : String) : Outcome Probe :=
  match cardPattern name with
  | some submatch =>
    let i := Atoi submatch.2
    let cardPath := Join [drmPath, name]
    let cards := s.cards ++ [default]
    if i < 0 then Outcome.panicked i cards.length
    else
      match cards[i.toNat]? with
      | none => Outcome.panicked i cards.length
      | some card =>
        let vid := fs.readFile (Join [cardPath, "device/vendor"])
        let did := fs.readFile (Join [cardPath, "device/device"])
        let vidCut := CutPrefix vid "0x"
        let didCut := CutPrefix did "0x"
        let id := ReplaceAll (ToLower fs.caseTable (vidCut ++ ":" ++ didCut)) '\n' ""
        Outcome.returned
          ⟨cards.set i.toNat { card with path := cardPath, id := id },
            mapSet s.idDict id i.toNat⟩
  | none =>
    match eDPPattern name with
    | some eDPSubmatch =>
      let i := Atoi eDPSubmatch.1
      if i < 0 then Outcome.panicked i s.cards.length
      else
        match s.cards[i.toNat]? with
        | none => Outcome.panicked i s.cards.length
        | some card =>
          Outcome.returned ⟨s.cards.set i.toNat { card with eDP := true }, s.idDict⟩
    | none => Outcome.returned s

/-- The loop of `GetSystemCards` over the directory entries. -/
def probeEntries (fs : SysFs) : List String → Probe → Outcome Probe
  | [], s => Outcome.returned s
  | name :: names, s =>
    match probeEntry fs s name with
    | Outcome.returned s1 => probeEntries fs names s1
    | Outcome.exited code => Outcome.exited code
    | Outcome.panicked i n => Outcome.panicked i n

/-- The function `GetSystemCards`. -/
def GetSystemCards (fs : SysFs) : Outcome Probe :=
  probeEntries fs (fs.readDir drmPath) ⟨[], []⟩

/-! ## Offload Policy -/

/-- The function `PrimeIsAllowed`. -/
def PrimeIsAllowed {Rest : Type} (cards : List Card) (bcfg : Binary Rest) : Run Bool :=
  if cards.length ≤ 1 then ⟨[Event.logFewCards], Outcome.returned false⟩
  else if cards.length > 2 then
    if (!bcfg.Dxvk && bcfg.Renderer != "Vulkan") = true then
      ⟨[Event.logManyCardsOpenGL cards.length, Event.logUseVulkan, Event.logAborting],
        Outcome.exited 1⟩
    else ⟨[Event.logManyCardsVulkan cards.length], Outcome.returned false⟩
  else
    match cards[0]? with
    | none => ⟨[], Outcome.panicked 0 cards.length⟩
    | some card0 =>
      if (!card0.eDP) = true then ⟨[Event.logNoEDP], Outcome.returned false⟩
      else ⟨[], Outcome.returned true⟩

/-! ## Orchestrator -/

/-- A call of `ChooseCard` in return position, after the effects `before`. -/
def returnChoice {Rest : Type} (fs : SysFs) (bcfg : Binary Rest) (before : List Event)
    (c : Card) : Run (Binary Rest) :=
  ⟨before ++ (ChooseCard fs bcfg c).2, Outcome.returned (ChooseCard fs bcfg c).1⟩

/-- The cases `"integrated"` (`k = 0`) and `"prime-discrete"` (`k = 1`) of
`SetupPrimeOffload`. -/
def roleCase {Rest : Type} (fs : SysFs) (bcfg : Binary Rest) (cards : List Card) (k : Nat) :
    Run (Binary Rest) :=
  match PrimeIsAllowed cards bcfg with
  | ⟨t, Outcome.returned false⟩ => ⟨t, Outcome.returned bcfg⟩
  | ⟨t, Outcome.returned true⟩ =>
    match cards[k]? with
    | some c => returnChoice fs bcfg t c
    | none => ⟨t, Outcome.panicked k cards.length⟩
  | ⟨t, Outcome.exited code⟩ => ⟨t, Outcome.exited code⟩
  | ⟨t, Outcome.panicked i n⟩ => ⟨t, Outcome.panicked i n⟩

/-- The function `SetupPrimeOffload`.  In the index case the test `card == nil`
can never succeed, as no pointer of the slice is nil; its branch is absent. -/
def SetupPrimeOffload {Rest : Type} (fs : SysFs) (bcfg : Binary Rest) : Run (Binary Rest) :=
  if bcfg.ForcedGpu = "" then ⟨[Event.logForcedGpuEmpty], Outcome.returned bcfg⟩
  else
    match GetSystemCards fs with
    | Outcome.exited code => ⟨[], Outcome.exited code⟩
    | Outcome.panicked i n => ⟨[], Outcome.panicked i n⟩
    | Outcome.returned probe =>
      if bcfg.ForcedGpu = "integrated" then roleCase fs bcfg probe.cards 0
      else if bcfg.ForcedGpu = "prime-discrete" then roleCase fs bcfg probe.cards 1
      else if Contains bcfg.ForcedGpu ":" then
        match mapGet probe.idDict bcfg.ForcedGpu with
        | none => ⟨[Event.logNoSuchId bcfg.ForcedGpu], Outcome.exited 1⟩
        | some ptr =>
          match probe.cards[ptr]? with
          | some c => returnChoice fs bcfg [] c
          | none => ⟨[], Outcome.panicked ptr probe.cards.length⟩
      else
        let id := Atoi bcfg.ForcedGpu
        if id < 0 then ⟨[], Outcome.panicked id probe.cards.length⟩
        else
          match probe.cards[id.toNat]? with
          | some c => returnChoice fs bcfg [] c
          | none => ⟨[], Outcome.panicked id probe.cards.length⟩

/-! ## Notions used in the statements -/

/-- The final component of a path: the text that follows its last slash, and the
whole path when it has no slash. -/
def finalComponent (p : String) : String :=
  String.mk (p.data.reverse.takeWhile (fun c => c != '/')).reverse

/-- The numbers carried by the card entries of a listing, in listing order: for
each name matched by `cardPattern`, the index the probe computes from it. -/
def cardNumbers (names : List String) : List Int :=
  names.filterMap (fun name => (cardPattern name).map (fun submatch => Atoi submatch.2))

/-- Invariant of the loop of `GetSystemCards` on a listing in which no two card
entries carry the same number; `seen` are the numbers of the card entries
processed so far.  The card entries met so far are numbered `0, 1, 2, …` in
listing order, every entry of the identifier index points to a record that has
that identifier, and the identifier of every record is a key of the index. -/
def ProbeInv (s : Probe) (seen : List Int) : Prop :=
  seen = List.map Int.ofNat (List.range s.cards.length) ∧
    (∀ id ptr, mapGet s.idDict id = some ptr → ∃ c, s.cards[ptr]? = some c ∧ c.id = id) ∧
    (∀ c ∈ s.cards, ∃ ptr, mapGet s.idDict c.id = some ptr)

/-- The value `ChooseCard` proposes for `__GLX_VENDOR_LIBRARY_NAME`. -/
def vendorLibrary (fs : SysFs) (c : Card) : String :=
  if HasSuffix (fs.evalSymlinks (Join [c.path, "device/driver"])) "nvidia" then "nvidia"
  else "mesa"

/-- The configuration `b` differs from `bcfg` in the environment map at most. -/
def SameButEnv {Rest : Type} (b bcfg : Binary Rest) : Prop :=
  b.Dxvk = bcfg.Dxvk ∧ b.Renderer = bcfg.Renderer ∧ b.ForcedGpu = bcfg.ForcedGpu ∧
    b.rest = bcfg.rest

/-- The text is a decimal integer: an optional sign followed by at least one
decimal digit. -/
def IsDecimalInteger (s : String) : Prop :=
  ∃ sign digits : List Char, (sign = [] ∨ sign = ['+'] ∨ sign = ['-']) ∧ digits ≠ [] ∧
    (∀ c ∈ digits, c.isDigit = true) ∧ s.data = sign ++ digits

/-- The identifier the loop of `GetSystemCards` builds from the content `vid` of the
vendor attribute and the content `did` of the device attribute. -/
def deviceId (table : Char → Char) (vid did : String) : String :=
  ReplaceAll (ToLower table (CutPrefix vid "0x" ++ ":" ++ CutPrefix did "0x")) '\n' ""

/-- The identifier the loop of `GetSystemCards` builds for the card entry `name`. -/
def entryId (fs : SysFs) (name : String) : String :=
  deviceId fs.caseTable (fs.readFile (Join [Join [drmPath, name], "device/vendor"]))
    (fs.readFile (Join [Join [drmPath, name], "device/device"]))

/-- Hexadecimal digits, in either letter case. -/
def isHexDigit (c : Char) : Bool :=
  c.isDigit || (97 ≤ c.toNat && c.toNat ≤ 102) || (65 ≤ c.toNat && c.toNat ≤ 70)

/-- The card entries of a listing, in listing order. -/
def cardEntries (names : List String) : List String :=
  names.filter (fun name => (cardPattern name).isSome)

/-- Invariant of the loop of `GetSystemCards`: the records are, in listing order,
those of the card entries processed so far (the names `done`), each with the path
and the identifier of its entry. -/
def ProbeRecords (fs : SysFs) (s : Probe) (done : List String) : Prop :=
  s.cards.map (fun c => (c.path, c.id))
    = (cardEntries done).map (fun name => (Join [drmPath, name], entryId fs name))

/-- Invariant of the loop of `GetSystemCards`: no record placed after the one an
entry of the identifier index points to has the identifier of that entry. -/
def ProbeLast (s : Probe) : Prop :=
  ∀ id ptr, mapGet s.idDict id = some ptr →
    ∀ q c, ptr < q → s.cards[q]? = some c → c.id ≠ id

/-- The device an explicit directive designates in the result of a probe: through
the identifier index when the directive has a colon, by position otherwise. -/
def lookupDirective (probe : Probe) (d : String) : Option Card :=
  if Contains d ":" then (mapGet probe.idDict d).bind (fun ptr => probe.cards[ptr]?)
  else if Atoi d < 0 then none
  else probe.cards[(Atoi d).toNat]?

/-- The outcome with the returned value transformed. -/
def Outcome.map {α β : Type} (f : α → β) : Outcome α → Outcome β
  | Outcome.returned a => Outcome.returned (f a)
  | Outcome.exited code => Outcome.exited code
  | Outcome.panicked i n => Outcome.panicked i n

/-- The log lines of `PrimeIsAllowed`. -/
def isPolicyEvent : Event → Bool
  | Event.logFewCards => true
  | Event.logManyCardsOpenGL _ => true
  | Event.logUseVulkan => true
  | Event.logAborting => true
  | Event.logManyCardsVulkan _ => true
  | Event.logNoEDP => true
  | _ => false

/-- The identifier `id` is the one the loop of `GetSystemCards` builds for some card
entry of the listing `names`. -/
def IsEntryId (fs : SysFs) (names : List String) (id : String) : Prop :=
  ∃ name ∈ names, (cardPattern name).isSome = true ∧ id = entryId fs name

/-- Invariant of the loop of `GetSystemCards` on any listing: the identifier of a
record is empty, as `new(Card)` leaves it, or the one built for a card entry of
the listing, and so is every key of the identifier index. -/
def StoredIds (fs : SysFs) (names : List String) (s : Probe) : Prop :=
  (∀ c ∈ s.cards, c.id = "" ∨ IsEntryId fs names c.id) ∧
    (∀ id ptr, mapGet s.idDict id = some ptr → IsEntryId fs names id)

/-! ## Sample hosts and configurations -/

/-- A few lines of the lower-case mapping of the Unicode tables: `Ä` to `ä`, the
Kelvin sign to `k`, `İ` to `i`. -/
def sampleCaseTable (c : Char) : Char :=
  if c = Char.ofNat 0xC4 then Char.ofNat 0xE4
  else if c = Char.ofNat 0x212A then 'k'
  else if c = Char.ofNat 0x130 then 'i'
  else c

/-- A laptop: an integrated card driving the internal panel and a discrete card
bound to the proprietary driver. -/
def laptopFs : SysFs where
  caseTable := sampleCaseTable
  readDir := fun p =>
    if p = "/sys/class/drm" then
      ["card0", "card0-DP-1", "card0-eDP-1", "card1", "renderD128", "renderD129", "version"]
    else []
  readFile := fun p =>
    if p = "/sys/class/drm/card0/device/vendor" then "0x8086\n"
    else if p = "/sys/class/drm/card0/device/device" then "0x9A49\n"
    else if p = "/sys/class/drm/card1/device/vendor" then "0x10DE\n"
    else if p = "/sys/class/drm/card1/device/device" then "0x1F99\n"
    else ""
  evalSymlinks := fun p =>
    if p = "/sys/class/drm/card0/device/driver" then "/sys/bus/pci/drivers/i915"
    else if p = "/sys/class/drm/card1/device/driver" then "/sys/bus/pci/drivers/nvidia"
    else ""

/-- The record the probe builds for `card0` of `laptopFs`. -/
def laptopCard0 : Card := ⟨"/sys/class/drm/card0", true, "8086:9a49"⟩

/-- The record the probe builds for `card1` of `laptopFs`. -/
def laptopCard1 : Card := ⟨"/sys/class/drm/card1", false, "10de:1f99"⟩

/-- A workstation with three cards and no internal panel. -/
def workstationFs : SysFs where
  caseTable := sampleCaseTable
  readDir := fun p =>
    if p = "/sys/class/drm" then ["card0", "card0-HDMI-A-1", "card1", "card2", "version"]
    else []
  readFile := fun p =>
    if p = "/sys/class/drm/card0/device/vendor" then "0x1002\n"
    else if p = "/sys/class/drm/card0/device/device" then "0x7340\n"
    else if p = "/sys/class/drm/card1/device/vendor" then "0x1002\n"
    else if p = "/sys/class/drm/card1/device/device" then "0x73BF\n"
    else if p = "/sys/class/drm/card2/device/vendor" then "0x10DE\n"
    else if p = "/sys/class/drm/card2/device/device" then "0x2204\n"
    else ""
  evalSymlinks := fun p =>
    if p = "/sys/class/drm/card2/device/driver" then "/sys/bus/pci/drivers/nvidia"
    else if p = "/sys/class/drm/card0/device/driver" then "/sys/bus/pci/drivers/amdgpu"
    else if p = "/sys/class/drm/card1/device/driver" then "/sys/bus/pci/drivers/amdgpu"
    else ""

/-- The record the probe builds for `card0` of `workstationFs`. -/
def workstationCard0 : Card := ⟨"/sys/class/drm/card0", false, "1002:7340"⟩

/-- A host whose only card is numbered 1. -/
def loneCard1Fs : SysFs where
  caseTable := sampleCaseTable
  readDir := fun p => if p = "/sys/class/drm" then ["card1", "renderD128", "version"] else []
  readFile := fun _ => ""
  evalSymlinks := fun _ => ""

/-- A configuration with no field set but the renderer and the directive. -/
def sampleConfig (renderer directive : String) : Binary Unit :=
  ⟨[], false, renderer, directive, ()⟩

/-- A configuration in which the caller has already chosen `DRI_PRIME`. -/
def presetConfig (directive : String) : Binary Unit :=
  ⟨[("DRI_PRIME", "custom")], false, "OpenGL", directive, ()⟩

/-- A host whose single card is bound to a driver whose name ends in `nvidia`
without being `nvidia`. -/
def oddDriverFs : SysFs where
  caseTable := sampleCaseTable
  readDir := fun p => if p = "/sys/class/drm" then ["card0", "version"] else []
  readFile := fun _ => ""
  evalSymlinks := fun p =>
    if p = "/sys/class/drm/card0/device/driver" then "/sys/bus/pci/drivers/not-nvidia" else ""

/-- The record the probe builds for `card0` of `oddDriverFs`. -/
def oddDriverCard0 : Card := ⟨"/sys/class/drm/card0", false, ":"⟩

/-- A configuration in which the caller has already chosen the GL vendor library. -/
def presetVendorConfig : Binary Unit :=
  ⟨[("__GLX_VENDOR_LIBRARY_NAME", "custom")], false, "OpenGL", "prime-discrete", ()⟩

/-- A laptop whose internal panel is wired to the card numbered 1. -/
def panelOnCard1Fs : SysFs where
  caseTable := sampleCaseTable
  readDir := fun p =>
    if p = "/sys/class/drm" then
      ["card0", "card0-HDMI-A-1", "card1", "card1-eDP-1", "renderD128", "renderD129", "version"]
    else []
  readFile := fun p =>
    if p = "/sys/class/drm/card0/device/vendor" then "0x10de\n"
    else if p = "/sys/class/drm/card0/device/device" then "0x25a2\n"
    else if p = "/sys/class/drm/card1/device/vendor" then "0x1002\n"
    else if p = "/sys/class/drm/card1/device/device" then "0x1638\n"
    else ""
  evalSymlinks := fun p =>
    if p = "/sys/class/drm/card0/device/driver" then "/sys/bus/pci/drivers/nvidia"
    else if p = "/sys/class/drm/card1/device/driver" then "/sys/bus/pci/drivers/amdgpu"
    else ""

/-- A host with two cards of the same model. -/
def twinFs : SysFs where
  caseTable := sampleCaseTable
  readDir := fun p =>
    if p = "/sys/class/drm" then ["card0", "card0-DP-1", "card1", "renderD128", "version"]
    else []
  readFile := fun p =>
    if p = "/sys/class/drm/card0/device/vendor" then "0x10de\n"
    else if p = "/sys/class/drm/card0/device/device" then "0x2204\n"
    else if p = "/sys/class/drm/card1/device/vendor" then "0x10de\n"
    else if p = "/sys/class/drm/card1/device/device" then "0x2204\n"
    else ""
  evalSymlinks := fun _ => "/sys/bus/pci/drivers/nouveau"

/-- A listing with two card entries that carry the number 0: `card0` and `card00`. -/
def repeatedNumberFs : SysFs where
  caseTable := sampleCaseTable
  readDir := fun p => if p = "/sys/class/drm" then ["card0", "card00", "version"] else []
  readFile := fun p =>
    if p = "/sys/class/drm/card0/device/vendor" then "0x8086\n"
    else if p = "/sys/class/drm/card0/device/device" then "0x9A49\n"
    else if p = "/sys/class/drm/card00/device/vendor" then "0x10DE\n"
    else if p = "/sys/class/drm/card00/device/device" then "0x1F99\n"
    else ""
  evalSymlinks := fun _ => ""

/-- A listing with two card entries that carry the number 0: `card0` and `xcard0`,
which the expression of the probe, not anchored on the left, takes for a card. -/
def strayNameFs : SysFs where
  caseTable := sampleCaseTable
  readDir := fun p => if p = "/sys/class/drm" then ["card0", "version", "xcard0"] else []
  readFile := fun p =>
    if p = "/sys/class/drm/card0/device/vendor" then "0x8086\n"
    else if p = "/sys/class/drm/card0/device/device" then "0x9A49\n"
    else if p = "/sys/class/drm/xcard0/device/vendor" then "0x10DE\n"
    else if p = "/sys/class/drm/xcard0/device/device" then "0x1F99\n"
    else ""
  evalSymlinks := fun _ => ""

/-! ## Lemmas on maps -/

theorem mapGet_filter_ne {β : Type} (m : List (String × β)) (k k0 : String) (h : k0 ≠ k) :
    mapGet (m.filter (fun e => e.1 != k)) k0 = mapGet m k0 := by
  induction m with
  | nil => rfl
  | cons e m ih =>
    obtain ⟨a, b⟩ := e
    unfold mapGet at ih ⊢
    by_cases hak : a = k
    · subst hak
      have hne : (k0 == a) = false := by simpa using h
      simp [List.filter, List.lookup, hne, ih]
    · have hak2 : (a != k) = true := by simpa using hak
      by_cases hk0 : k0 = a
      · subst hk0
        simp [List.filter, List.lookup, hak2]
      · have hne : (k0 == a) = false := by simpa using hk0
        simp [List.filter, List.lookup, hak2, hne, ih]

theorem mapGet_mapSet_self {β : Type} (m : List (String × β)) (k : String) (v : β) :
    mapGet (mapSet m k v) k = some v := by
  simp [mapGet, mapSet, List.lookup]

theorem mapGet_mapSet_of_ne {β : Type} (m : List (String × β)) (k k0 : String) (v : β)
    (h : k0 ≠ k) : mapGet (mapSet m k v) k0 = mapGet m k0 := by
  have hne : (k0 == k) = false := by simpa using h
  have := mapGet_filter_ne m k k0 h
  unfold mapGet at this ⊢
  simp [mapSet, List.lookup, hne, this]

/-- A key that has a value keeps it through `setIfUndefined`. -/
theorem setIfUndefined_keeps (env : Environment) (k v k0 v0 : String)
    (h : mapGet env k0 = some v0) : mapGet (setIfUndefined env k v).1 k0 = some v0 := by
  unfold setIfUndefined
  cases hk : mapGet env k with
  | some w => simpa using h
  | none =>
    have hne : k0 ≠ k := by
      intro he
      rw [he, hk] at h
      cases h
    simpa [mapGet_mapSet_of_ne env k k0 v hne] using h

/-- A key without a value gets the proposed one from `setIfUndefined`. -/
theorem setIfUndefined_sets (env : Environment) (k v : String) (h : mapGet env k = none) :
    mapGet (setIfUndefined env k v).1 k = some v := by
  unfold setIfUndefined
  simp [h, mapGet_mapSet_self]

/-- The keys other than the proposed one are left as they are by `setIfUndefined`. -/
theorem setIfUndefined_other (env : Environment) (k v k0 : String) (h : k0 ≠ k) :
    mapGet (setIfUndefined env k v).1 k0 = mapGet env k0 := by
  unfold setIfUndefined
  cases hk : mapGet env k with
  | some w => rfl
  | none => simpa using mapGet_mapSet_of_ne env k k0 v h

/-! ## Device Selector: existing values are kept -/

/-- Claim C1: every key that has a value in the environment map of the
configuration has the same value in the environment map of the configuration
returned by `ChooseCard`, whatever the card and whatever the file system (hence
whatever the resolved driver path). -/
theorem ChooseCard_keeps_defined {Rest : Type} (fs : SysFs) (bcfg : Binary Rest) (c : Card)
    (k v : String) (h : mapGet bcfg.Env k = some v) :
    mapGet (ChooseCard fs bcfg c).1.Env k = some v := by
  unfold ChooseCard
  have h1 := setIfUndefined_keeps bcfg.Env "MESA_VK_DEVICE_SELECT_FORCE_DEFAULT_DEVICE" "1" k v h
  have h2 := setIfUndefined_keeps _ "DRI_PRIME" c.id k v h1
  by_cases hs : HasSuffix (fs.evalSymlinks (Join [c.path, "device/driver"])) "nvidia" = true
  · simpa [hs] using setIfUndefined_keeps _ "__GLX_VENDOR_LIBRARY_NAME" "nvidia" k v h2
  · simpa [hs] using setIfUndefined_keeps _ "__GLX_VENDOR_LIBRARY_NAME" "mesa" k v h2

/-- Claim C1 on an example: `DRI_PRIME` set to `custom` by the caller is still
`custom` after the discrete card of the laptop is chosen. -/
theorem ChooseCard_keeps_defined_witness :
    mapGet (presetConfig "prime-discrete").Env "DRI_PRIME" = some "custom" ∧
      mapGet (ChooseCard laptopFs (presetConfig "prime-discrete") laptopCard1).1.Env "DRI_PRIME"
        = some "custom" :=
  ⟨by decide,
    ChooseCard_keeps_defined laptopFs (presetConfig "prime-discrete") laptopCard1
      "DRI_PRIME" "custom" (by decide)⟩

/-! ## Offload Policy -/

/-- Claim C2: on a list of exactly two devices `PrimeIsAllowed` returns, for every
configuration, the internal-panel flag of device 0: `true` when the flag is set
and `false` when it is not; it neither exits nor panics. -/
theorem PrimeIsAllowed_two {Rest : Type} (c0 c1 : Card) (bcfg : Binary Rest) :
    (PrimeIsAllowed [c0, c1] bcfg).out = Outcome.returned c0.eDP ∧
      (c0.eDP = true → PrimeIsAllowed [c0, c1] bcfg = ⟨[], Outcome.returned true⟩) ∧
      (c0.eDP = false →
        PrimeIsAllowed [c0, c1] bcfg = ⟨[Event.logNoEDP], Outcome.returned false⟩) := by
  cases he : c0.eDP <;> simp [PrimeIsAllowed, he]

/-- Claim C3: on a list of at most one device (the empty list included)
`PrimeIsAllowed` returns `false` for every configuration, after the single log
line of that case; it neither exits nor panics. -/
theorem PrimeIsAllowed_le_one {Rest : Type} (cards : List Card) (bcfg : Binary Rest)
    (h : cards.length ≤ 1) :
    PrimeIsAllowed cards bcfg = ⟨[Event.logFewCards], Outcome.returned false⟩ := by
  simp [PrimeIsAllowed, h]

/-- Claim C3 on the empty list, with the Vulkan renderer and the directive
`integrated`. -/
theorem PrimeIsAllowed_le_one_witness :
    ([] : List Card).length ≤ 1 ∧
      PrimeIsAllowed [] (sampleConfig "Vulkan" "integrated")
        = ⟨[Event.logFewCards], Outcome.returned false⟩ :=
  ⟨by decide, PrimeIsAllowed_le_one [] (sampleConfig "Vulkan" "integrated") (by decide)⟩

/-- Claim C5: on a list of three or more devices, with the Vulkan renderer or with
the translation layer (Dxvk) switched on, `PrimeIsAllowed` returns `false` after
the single log line of that case; it does not exit. -/
theorem PrimeIsAllowed_many_vulkan {Rest : Type} (cards : List Card) (bcfg : Binary Rest)
    (h : 3 ≤ cards.length) (hv : bcfg.Renderer = "Vulkan" ∨ bcfg.Dxvk = true) :
    PrimeIsAllowed cards bcfg
      = ⟨[Event.logManyCardsVulkan cards.length], Outcome.returned false⟩ := by
  have h1 : ¬ cards.length ≤ 1 := by omega
  have h2 : cards.length > 2 := by omega
  rcases hv with hv | hv <;> simp [PrimeIsAllowed, h1, h2, hv]

/-- Claim C5 on three devices with the OpenGL renderer and the translation layer
switched on. -/
theorem PrimeIsAllowed_many_vulkan_witness :
    3 ≤ [workstationCard0, laptopCard0, laptopCard1].length ∧
      ((⟨[], true, "OpenGL", "integrated", ()⟩ : Binary Unit).Renderer = "Vulkan" ∨
        (⟨[], true, "OpenGL", "integrated", ()⟩ : Binary Unit).Dxvk = true) ∧
      PrimeIsAllowed [workstationCard0, laptopCard0, laptopCard1]
          (⟨[], true, "OpenGL", "integrated", ()⟩ : Binary Unit)
        = ⟨[Event.logManyCardsVulkan 3], Outcome.returned false⟩ :=
  ⟨by decide, Or.inr rfl,
    PrimeIsAllowed_many_vulkan [workstationCard0, laptopCard0, laptopCard1]
      ⟨[], true, "OpenGL", "integrated", ()⟩ (by decide) (Or.inr rfl)⟩

/-- On a list of three or more devices, with a renderer other than Vulkan and the
translation layer switched off, `PrimeIsAllowed` exits with status 1 after its
three log lines. -/
theorem PrimeIsAllowed_many_opengl {Rest : Type} (cards : List Card) (bcfg : Binary Rest)
    (h : 3 ≤ cards.length) (hr : bcfg.Renderer ≠ "Vulkan") (hx : bcfg.Dxvk = false) :
    PrimeIsAllowed cards bcfg
      = ⟨[Event.logManyCardsOpenGL cards.length, Event.logUseVulkan, Event.logAborting],
          Outcome.exited 1⟩ := by
  have h1 : ¬ cards.length ≤ 1 := by omega
  have h2 : cards.length > 2 := by omega
  simp [PrimeIsAllowed, h1, h2, hr, hx]

/-! ## Orchestrator: the empty directive -/

/-- Claim C6: with the empty directive `SetupPrimeOffload` returns the very
configuration it was given, after one log line and without any write to the
environment map, and this for every file system: the result does not depend on
what a probe would find. -/
theorem SetupPrimeOffload_empty {Rest : Type} (fs : SysFs) (bcfg : Binary Rest)
    (h : bcfg.ForcedGpu = "") :
    SetupPrimeOffload fs bcfg = ⟨[Event.logForcedGpuEmpty], Outcome.returned bcfg⟩ := by
  simp [SetupPrimeOffload, h]

/-- Claim C6 on a host on which the probe itself would panic. -/
theorem SetupPrimeOffload_empty_witness :
    (presetConfig "").ForcedGpu = "" ∧
      GetSystemCards loneCard1Fs = Outcome.panicked 1 1 ∧
      SetupPrimeOffload loneCard1Fs (presetConfig "")
        = ⟨[Event.logForcedGpuEmpty], Outcome.returned (presetConfig "")⟩ :=
  ⟨rfl, by decide, SetupPrimeOffload_empty loneCard1Fs (presetConfig "") rfl⟩

/-! ## Orchestrator: three or more devices behind a role directive -/

/-- Claim C4, as amended: when the probe yields three or more devices, the
directive is `integrated` or `prime-discrete`, the renderer is not Vulkan and the
translation layer (Dxvk) is off, `SetupPrimeOffload` exits with status 1 after
the three log lines of the ambiguous topology and nothing else: no card is chosen
and the environment map is not written. -/
theorem SetupPrimeOffload_role_ambiguous {Rest : Type} (fs : SysFs) (bcfg : Binary Rest)
    (probe : Probe) (hp : GetSystemCards fs = Outcome.returned probe)
    (h3 : 3 ≤ probe.cards.length)
    (hd : bcfg.ForcedGpu = "integrated" ∨ bcfg.ForcedGpu = "prime-discrete")
    (hr : bcfg.Renderer ≠ "Vulkan") (hx : bcfg.Dxvk = false) :
    SetupPrimeOffload fs bcfg
      = ⟨[Event.logManyCardsOpenGL probe.cards.length, Event.logUseVulkan, Event.logAborting],
          Outcome.exited 1⟩ := by
  have hpa := PrimeIsAllowed_many_opengl probe.cards bcfg h3 hr hx
  rcases hd with hd | hd <;> simp +decide [SetupPrimeOffload, hp, hd, roleCase, hpa]

/-- Claim C4, as amended, on the workstation with the OpenGL renderer and the
directive `integrated`. -/
theorem SetupPrimeOffload_role_ambiguous_witness :
    GetSystemCards workstationFs
        = Outcome.returned
            ⟨[workstationCard0, ⟨"/sys/class/drm/card1", false, "1002:73bf"⟩,
                ⟨"/sys/class/drm/card2", false, "10de:2204"⟩],
              [("10de:2204", 2), ("1002:73bf", 1), ("1002:7340", 0)]⟩ ∧
      SetupPrimeOffload workstationFs (sampleConfig "OpenGL" "integrated")
        = ⟨[Event.logManyCardsOpenGL 3, Event.logUseVulkan, Event.logAborting],
            Outcome.exited 1⟩ :=
  ⟨by decide,
    SetupPrimeOffload_role_ambiguous workstationFs (sampleConfig "OpenGL" "integrated")
      ⟨[workstationCard0, ⟨"/sys/class/drm/card1", false, "1002:73bf"⟩,
          ⟨"/sys/class/drm/card2", false, "10de:2204"⟩],
        [("10de:2204", 2), ("1002:73bf", 1), ("1002:7340", 0)]⟩
      (by decide) (by decide) (Or.inl rfl) (by decide) rfl⟩

/-- Claim C4 as stated fails: on the workstation (three devices), with the OpenGL
renderer, the translation layer off and the non-empty directive `0`,
`SetupPrimeOffload` does not exit; it returns the configuration produced by
`ChooseCard` for device 0, and `DRI_PRIME` has been written. -/
theorem SetupPrimeOffload_ambiguous_counterexample :
    (∃ probe, GetSystemCards workstationFs = Outcome.returned probe ∧
        3 ≤ probe.cards.length) ∧
      (sampleConfig "OpenGL" "0").ForcedGpu ≠ "" ∧
      (sampleConfig "OpenGL" "0").Renderer ≠ "Vulkan" ∧
      (sampleConfig "OpenGL" "0").Dxvk = false ∧
      (SetupPrimeOffload workstationFs (sampleConfig "OpenGL" "0")).out
        = Outcome.returned (ChooseCard workstationFs (sampleConfig "OpenGL" "0")
            workstationCard0).1 ∧
      (SetupPrimeOffload workstationFs (sampleConfig "OpenGL" "0")).out ≠ Outcome.exited 1 ∧
      Event.envSet "DRI_PRIME" "1002:7340"
        ∈ (SetupPrimeOffload workstationFs (sampleConfig "OpenGL" "0")).trace := by
  refine ⟨⟨_, rfl, by decide⟩, by decide, by decide, rfl, by decide, by decide, by decide⟩

/-! ## Device Selector: the vendor library -/

/-- A path whose final component is `nvidia` ends with the text `nvidia`. -/
theorem HasSuffix_of_finalComponent (p : String) (h : finalComponent p = "nvidia") :
    HasSuffix p "nvidia" = true := by
  have hd : (p.data.reverse.takeWhile (fun c => c != '/')).reverse = "nvidia".data := by
    have := congrArg String.data h
    simpa [finalComponent] using this
  have hsuf : (p.data.reverse.takeWhile (fun c => c != '/')).reverse <:+ p.data := by
    have hpre := List.takeWhile_prefix (fun c => c != '/') (l := p.data.reverse)
    have := List.reverse_suffix.mpr hpre
    simpa using this
  rw [hd] at hsuf
  unfold HasSuffix
  exact List.isSuffixOf_iff_suffix.mpr hsuf

/-- The three keys written by `ChooseCard` are distinct, so the value found for the
vendor library before the last `setIfUndefined` is the one of the caller. -/
theorem vendor_before_last (env : Environment) (v : String) :
    mapGet (setIfUndefined (setIfUndefined env
        "MESA_VK_DEVICE_SELECT_FORCE_DEFAULT_DEVICE" "1").1 "DRI_PRIME" v).1
        "__GLX_VENDOR_LIBRARY_NAME"
      = mapGet env "__GLX_VENDOR_LIBRARY_NAME" := by
  rw [setIfUndefined_other _ "DRI_PRIME" v "__GLX_VENDOR_LIBRARY_NAME" (by decide),
    setIfUndefined_other _ "MESA_VK_DEVICE_SELECT_FORCE_DEFAULT_DEVICE" "1"
      "__GLX_VENDOR_LIBRARY_NAME" (by decide)]

/-- A text all of whose characters pass a test starts a list exactly when it
starts the longest run of the list that passes the test. -/
theorem prefix_takeWhile_iff (P : Char → Bool) :
    ∀ (t l : List Char), (∀ x ∈ t, P x = true) → (t <+: l ↔ t <+: l.takeWhile P) := by
  intro t
  induction t with
  | nil =>
    intro l _
    simp
  | cons a t ih =>
    intro l hP
    cases l with
    | nil => simp
    | cons b l =>
      have ha : P a = true := hP a (List.mem_cons_self a t)
      have ht : ∀ x ∈ t, P x = true := fun x hx => hP x (List.mem_cons_of_mem a hx)
      by_cases hab : a = b
      · subst hab
        rw [List.takeWhile_cons_of_pos ha, List.cons_prefix_cons, List.cons_prefix_cons]
        simp [ih l ht]
      · have hleft : ¬ (a :: t <+: b :: l) := by
          rw [List.cons_prefix_cons]
          exact fun h => hab h.1
        have hright : ¬ (a :: t <+: (b :: l).takeWhile P) := by
          by_cases hb : P b = true
          · rw [List.takeWhile_cons_of_pos hb, List.cons_prefix_cons]
            exact fun h => hab h.1
          · rw [List.takeWhile_cons_of_neg hb]
            simp
        exact ⟨fun h => absurd h hleft, fun h => absurd h hright⟩

/-- A path ends with the text `nvidia` exactly when its final component does. -/
theorem HasSuffix_finalComponent (p : String) :
    HasSuffix (finalComponent p) "nvidia" = HasSuffix p "nvidia" := by
  have hP : ∀ x ∈ "nvidia".data.reverse, (fun c : Char => c != '/') x = true := by decide
  have key := prefix_takeWhile_iff (fun c => c != '/') "nvidia".data.reverse p.data.reverse hP
  have h1 : "nvidia".data <:+ p.data ↔ "nvidia".data.reverse <+: p.data.reverse :=
    List.reverse_prefix.symm
  have h2 : "nvidia".data <:+ (p.data.reverse.takeWhile (fun c => c != '/')).reverse ↔
      "nvidia".data.reverse <+: p.data.reverse.takeWhile (fun c => c != '/') := by
    rw [← List.reverse_prefix, List.reverse_reverse]
  unfold HasSuffix finalComponent
  rw [Bool.eq_iff_iff, List.isSuffixOf_iff_suffix, List.isSuffixOf_iff_suffix]
  exact h2.trans (key.symm.trans h1.symm)

/-- A value the configuration has for a key is the value of that key in the
configuration returned by `ChooseCard`. -/
theorem ChooseCard_keeps_value {Rest : Type} (fs : SysFs) (bcfg : Binary Rest) (c : Card)
    (k v : String) (h : mapGet bcfg.Env k = some v) :
    mapGet (ChooseCard fs bcfg c).1.Env k = some v := by
  have h1 := setIfUndefined_keeps bcfg.Env "MESA_VK_DEVICE_SELECT_FORCE_DEFAULT_DEVICE" "1" k v h
  have h2 := setIfUndefined_keeps _ "DRI_PRIME" c.id k v h1
  unfold ChooseCard
  by_cases hs : HasSuffix (fs.evalSymlinks (Join [c.path, "device/driver"])) "nvidia" = true
  · simpa [hs] using setIfUndefined_keeps _ "__GLX_VENDOR_LIBRARY_NAME" "nvidia" k v h2
  · simpa [hs] using setIfUndefined_keeps _ "__GLX_VENDOR_LIBRARY_NAME" "mesa" k v h2

/-- Claim C7, as amended: a value the caller has already given to
`__GLX_VENDOR_LIBRARY_NAME` is kept by `ChooseCard`; when the configuration does
not define that key, after `ChooseCard` the entry is `nvidia` when the final
component of the resolved `device/driver` path is `nvidia`, and `mesa` when that
final component does not end with the text `nvidia`. -/
theorem ChooseCard_vendor {Rest : Type} (fs : SysFs) (bcfg : Binary Rest) (c : Card) :
    (∀ v, mapGet bcfg.Env "__GLX_VENDOR_LIBRARY_NAME" = some v →
        mapGet (ChooseCard fs bcfg c).1.Env "__GLX_VENDOR_LIBRARY_NAME" = some v) ∧
      (mapGet bcfg.Env "__GLX_VENDOR_LIBRARY_NAME" = none →
        (finalComponent (fs.evalSymlinks (Join [c.path, "device/driver"])) = "nvidia" →
          mapGet (ChooseCard fs bcfg c).1.Env "__GLX_VENDOR_LIBRARY_NAME" = some "nvidia") ∧
        (HasSuffix (finalComponent (fs.evalSymlinks (Join [c.path, "device/driver"])))
            "nvidia" = false →
          mapGet (ChooseCard fs bcfg c).1.Env "__GLX_VENDOR_LIBRARY_NAME" = some "mesa")) := by
  refine ⟨fun v hv => ChooseCard_keeps_value fs bcfg c _ v hv, ?_⟩
  intro h
  have hbefore := vendor_before_last bcfg.Env c.id
  rw [h] at hbefore
  constructor
  · intro hf
    have hs := HasSuffix_of_finalComponent _ hf
    simpa [ChooseCard, hs] using
      setIfUndefined_sets _ "__GLX_VENDOR_LIBRARY_NAME" "nvidia" hbefore
  · intro hf
    rw [HasSuffix_finalComponent] at hf
    simpa [ChooseCard, hf] using
      setIfUndefined_sets _ "__GLX_VENDOR_LIBRARY_NAME" "mesa" hbefore

/-- Claim C7, as amended, on the laptop: `custom` is kept when the caller has set
it, and otherwise the entry is `nvidia` for the card bound to the driver `nvidia`
and `mesa` for the card bound to `i915`. -/
theorem ChooseCard_vendor_witness :
    mapGet (ChooseCard laptopFs presetVendorConfig laptopCard1).1.Env
        "__GLX_VENDOR_LIBRARY_NAME" = some "custom" ∧
      mapGet (sampleConfig "OpenGL" "prime-discrete").Env "__GLX_VENDOR_LIBRARY_NAME" = none ∧
      finalComponent (laptopFs.evalSymlinks (Join [laptopCard1.path, "device/driver"]))
        = "nvidia" ∧
      mapGet (ChooseCard laptopFs (sampleConfig "OpenGL" "prime-discrete") laptopCard1).1.Env
        "__GLX_VENDOR_LIBRARY_NAME" = some "nvidia" ∧
      finalComponent (laptopFs.evalSymlinks (Join [laptopCard0.path, "device/driver"]))
        = "i915" ∧
      mapGet (ChooseCard laptopFs (sampleConfig "OpenGL" "prime-discrete") laptopCard0).1.Env
        "__GLX_VENDOR_LIBRARY_NAME" = some "mesa" :=
  ⟨(ChooseCard_vendor laptopFs presetVendorConfig laptopCard1).1 "custom" (by decide),
    by decide, by decide,
    ((ChooseCard_vendor laptopFs (sampleConfig "OpenGL" "prime-discrete") laptopCard1).2
      (by decide)).1 (by decide),
    by decide,
    ((ChooseCard_vendor laptopFs (sampleConfig "OpenGL" "prime-discrete") laptopCard0).2
      (by decide)).2 (by decide)⟩

/-- Claim C7 as stated fails: with the vendor library already set to `custom` by
the caller and a resolved driver path whose final component is `nvidia`, the
entry is `custom` after `ChooseCard`, not `nvidia`. -/
theorem ChooseCard_vendor_counterexample :
    finalComponent (laptopFs.evalSymlinks (Join [laptopCard1.path, "device/driver"]))
        = "nvidia" ∧
      mapGet presetVendorConfig.Env "__GLX_VENDOR_LIBRARY_NAME" = some "custom" ∧
      mapGet (ChooseCard laptopFs presetVendorConfig laptopCard1).1.Env
        "__GLX_VENDOR_LIBRARY_NAME" = some "custom" ∧
      mapGet (ChooseCard laptopFs presetVendorConfig laptopCard1).1.Env
        "__GLX_VENDOR_LIBRARY_NAME" ≠ some "nvidia" := by
  decide

/-- The test of `ChooseCard` is `strings.HasSuffix` on the whole resolved path: a
driver whose name ends with `nvidia` without being `nvidia` is taken for the
proprietary driver, which the comment of that branch reserves it for. -/
theorem ChooseCard_vendor_suffix :
    finalComponent (oddDriverFs.evalSymlinks (Join [oddDriverCard0.path, "device/driver"]))
        = "not-nvidia" ∧
      mapGet (ChooseCard oddDriverFs (sampleConfig "OpenGL" "0") oddDriverCard0).1.Env
        "__GLX_VENDOR_LIBRARY_NAME" = some "nvidia" := by
  decide

/-! ## Orchestrator: the role directives on the laptop layout -/

/-- When `PrimeIsAllowed` returns `true` on two devices, the role case returns the
choice of the device at the requested position. -/
theorem roleCase_two {Rest : Type} (fs : SysFs) (bcfg : Binary Rest) (c0 c1 : Card)
    (he : c0.eDP = true) :
    roleCase fs bcfg [c0, c1] 0 = returnChoice fs bcfg [] c0 ∧
      roleCase fs bcfg [c0, c1] 1 = returnChoice fs bcfg [] c1 := by
  have hpa : PrimeIsAllowed [c0, c1] bcfg = ⟨[], Outcome.returned true⟩ := by
    simp [PrimeIsAllowed, he]
  constructor <;> simp [roleCase, hpa]

/-- After `ChooseCard` on a configuration that does not define `DRI_PRIME`, the
entry `DRI_PRIME` is the identifier of the card. -/
theorem ChooseCard_sets_DRI_PRIME {Rest : Type} (fs : SysFs) (bcfg : Binary Rest) (c : Card)
    (h : mapGet bcfg.Env "DRI_PRIME" = none) :
    mapGet (ChooseCard fs bcfg c).1.Env "DRI_PRIME" = some c.id := by
  have h1 : mapGet (setIfUndefined bcfg.Env
      "MESA_VK_DEVICE_SELECT_FORCE_DEFAULT_DEVICE" "1").1 "DRI_PRIME" = none := by
    rw [setIfUndefined_other _ _ _ _ (by decide)]
    exact h
  have h2 := setIfUndefined_sets _ "DRI_PRIME" c.id h1
  unfold ChooseCard
  by_cases hs : HasSuffix (fs.evalSymlinks (Join [c.path, "device/driver"])) "nvidia" = true
  · simpa [hs] using setIfUndefined_keeps _ "__GLX_VENDOR_LIBRARY_NAME" "nvidia" _ _ h2
  · simpa [hs] using setIfUndefined_keeps _ "__GLX_VENDOR_LIBRARY_NAME" "mesa" _ _ h2

/-- Claim C8: when the probe yields exactly two devices and device 0 has the
internal-panel flag, `SetupPrimeOffload` with the directive `integrated` returns
what `ChooseCard` returns for device 0, with the effects of that call and no
other, and with the directive `prime-discrete` what `ChooseCard` returns for
device 1; when the configuration does not define `DRI_PRIME`, the returned
`DRI_PRIME` is the identifier of that device. -/
theorem SetupPrimeOffload_role_laptop {Rest : Type} (fs : SysFs) (bcfg : Binary Rest)
    (idDict : List (String × Nat)) (c0 c1 : Card)
    (hp : GetSystemCards fs = Outcome.returned ⟨[c0, c1], idDict⟩) (he : c0.eDP = true) :
    (bcfg.ForcedGpu = "integrated" →
        SetupPrimeOffload fs bcfg
          = ⟨(ChooseCard fs bcfg c0).2, Outcome.returned (ChooseCard fs bcfg c0).1⟩ ∧
        (mapGet bcfg.Env "DRI_PRIME" = none →
          mapGet (ChooseCard fs bcfg c0).1.Env "DRI_PRIME" = some c0.id)) ∧
      (bcfg.ForcedGpu = "prime-discrete" →
        SetupPrimeOffload fs bcfg
          = ⟨(ChooseCard fs bcfg c1).2, Outcome.returned (ChooseCard fs bcfg c1).1⟩ ∧
        (mapGet bcfg.Env "DRI_PRIME" = none →
          mapGet (ChooseCard fs bcfg c1).1.Env "DRI_PRIME" = some c1.id)) := by
  have hrole := roleCase_two fs bcfg c0 c1 he
  constructor
  · intro hd
    refine ⟨?_, ChooseCard_sets_DRI_PRIME fs bcfg c0⟩
    simp +decide [SetupPrimeOffload, hp, hd, hrole.1, returnChoice]
  · intro hd
    refine ⟨?_, ChooseCard_sets_DRI_PRIME fs bcfg c1⟩
    simp +decide [SetupPrimeOffload, hp, hd, hrole.2, returnChoice]

/-- Claim C8 on the laptop: the directive `integrated` yields `DRI_PRIME` equal to
the identifier of device 0 and `prime-discrete` the identifier of device 1. -/
theorem SetupPrimeOffload_role_laptop_witness :
    GetSystemCards laptopFs
        = Outcome.returned ⟨[laptopCard0, laptopCard1], [("10de:1f99", 1), ("8086:9a49", 0)]⟩ ∧
      laptopCard0.eDP = true ∧
      (SetupPrimeOffload laptopFs (sampleConfig "OpenGL" "integrated")).out
        = Outcome.returned
            ⟨[("__GLX_VENDOR_LIBRARY_NAME", "mesa"), ("DRI_PRIME", "8086:9a49"),
                ("MESA_VK_DEVICE_SELECT_FORCE_DEFAULT_DEVICE", "1")],
              false, "OpenGL", "integrated", ()⟩ ∧
      (SetupPrimeOffload laptopFs (sampleConfig "OpenGL" "prime-discrete")).out
        = Outcome.returned
            ⟨[("__GLX_VENDOR_LIBRARY_NAME", "nvidia"), ("DRI_PRIME", "10de:1f99"),
                ("MESA_VK_DEVICE_SELECT_FORCE_DEFAULT_DEVICE", "1")],
              false, "OpenGL", "prime-discrete", ()⟩ :=
  ⟨by decide, rfl,
    (congrArg Run.out
      ((SetupPrimeOffload_role_laptop laptopFs (sampleConfig "OpenGL" "integrated")
        [("10de:1f99", 1), ("8086:9a49", 0)]
        laptopCard0 laptopCard1 (by decide) rfl).1 rfl).1).trans (by decide),
    (congrArg Run.out
      ((SetupPrimeOffload_role_laptop laptopFs (sampleConfig "OpenGL" "prime-discrete")
        [("10de:1f99", 1), ("8086:9a49", 0)]
        laptopCard0 laptopCard1 (by decide) rfl).2 rfl).1).trans (by decide)⟩

/-! ## Device Prober: the identifier index -/

/-- An index that is in range after the append and differs from every earlier
position is the position of the appended record. -/
theorem fresh_index (cards : List Card) (seen : List Int) (i : Int) (card : Card)
    (hseen : seen = List.map Int.ofNat (List.range cards.length))
    (hnd : (seen ++ [i]).Nodup) (hneg : ¬ i < 0)
    (hget : (cards ++ [default])[i.toNat]? = some card) :
    i = (cards.length : Int) ∧ card = default := by
  have hlt : i.toNat < cards.length + 1 := by
    obtain ⟨h, -⟩ := List.getElem?_eq_some.mp hget
    simpa using h
  have hnot : i ∉ seen := by
    intro hmem
    have := (List.nodup_append.mp hnd).2.2
    exact this hmem (List.mem_singleton_self i)
  have hi : i.toNat = cards.length := by
    by_contra hne
    apply hnot
    rw [hseen]
    refine List.mem_map.mpr ⟨i.toNat, List.mem_range.mpr (by omega), ?_⟩
    exact Int.toNat_of_nonneg (by omega)
  refine ⟨by omega, ?_⟩
  rw [hi, List.getElem?_append_right (Nat.le_refl _)] at hget
  simpa using hget.symm

/-- The invariant is kept by the body of the loop. -/
theorem probeEntry_inv (fs : SysFs) (s s1 : Probe) (seen : List Int) (name : String)
    (hinv : ProbeInv s seen) (hnd : (seen ++ cardNumbers [name]).Nodup)
    (hstep : probeEntry fs s name = Outcome.returned s1) :
    ProbeInv s1 (seen ++ cardNumbers [name]) := by
  obtain ⟨hseen, hdict, hreg⟩ := hinv
  unfold probeEntry at hstep
  cases hcp : cardPattern name with
  | some submatch =>
    have hnum : cardNumbers [name] = [Atoi submatch.2] := by simp [cardNumbers, hcp]
    rw [hnum] at hnd ⊢
    simp only [hcp] at hstep
    by_cases hneg : Atoi submatch.2 < 0
    · simp [hneg] at hstep
    · simp only [hneg, if_false] at hstep
      cases hget : (s.cards ++ [default])[(Atoi submatch.2).toNat]? with
      | none => simp [hget] at hstep
      | some card =>
        obtain ⟨hi, hcard⟩ := fresh_index s.cards seen _ card hseen hnd hneg hget
        have hiNat : (Atoi submatch.2).toNat = s.cards.length := by omega
        simp only [hget, Outcome.returned.injEq] at hstep
        subst hstep
        subst hcard
        simp only [hiNat, List.set_append_right _ _ (Nat.le_refl _), Nat.sub_self,
          List.set_cons_zero]
        refine ⟨?_, ?_, ?_⟩
        · simp [hseen, hi, List.range_succ]
        · intro id ptr hm
          by_cases hid : id = ReplaceAll (ToLower fs.caseTable (CutPrefix (fs.readFile
              (Join [Join [drmPath, name], "device/vendor"])) "0x" ++ ":" ++
              CutPrefix (fs.readFile (Join [Join [drmPath, name], "device/device"])) "0x"))
              (Char.ofNat 10) ""
          · subst hid
            rw [mapGet_mapSet_self] at hm
            cases hm
            simp [List.getElem?_append_right]
          · rw [mapGet_mapSet_of_ne _ _ _ _ hid] at hm
            obtain ⟨c, hc, hcid⟩ := hdict id ptr hm
            have hlt : ptr < s.cards.length := (List.getElem?_eq_some.mp hc).1
            exact ⟨c, by rw [List.getElem?_append_left hlt]; exact hc, hcid⟩
        · intro c hc
          by_cases hid : c.id = ReplaceAll (ToLower fs.caseTable (CutPrefix (fs.readFile
              (Join [Join [drmPath, name], "device/vendor"])) "0x" ++ ":" ++
              CutPrefix (fs.readFile (Join [Join [drmPath, name], "device/device"])) "0x"))
              (Char.ofNat 10) ""
          · exact ⟨s.cards.length, by rw [hid, mapGet_mapSet_self]⟩
          · rcases List.mem_append.mp hc with hc | hc
            · obtain ⟨ptr, hptr⟩ := hreg c hc
              exact ⟨ptr, by rw [mapGet_mapSet_of_ne _ _ _ _ hid]; exact hptr⟩
            · exfalso
              apply hid
              rw [List.mem_singleton.mp hc]
  | none =>
    have hnum : cardNumbers [name] = [] := by simp [cardNumbers, hcp]
    rw [hnum, List.append_nil]
    simp only [hcp] at hstep
    cases hep : eDPPattern name with
    | none =>
      simp only [hep, Outcome.returned.injEq] at hstep
      subst hstep
      exact ⟨hseen, hdict, hreg⟩
    | some eDPSubmatch =>
      simp only [hep] at hstep
      by_cases hneg : Atoi eDPSubmatch.1 < 0
      · simp [hneg] at hstep
      · simp only [hneg, if_false] at hstep
        cases hget : s.cards[(Atoi eDPSubmatch.1).toNat]? with
        | none => simp [hget] at hstep
        | some card =>
          simp only [hget, Outcome.returned.injEq] at hstep
          subst hstep
          have hlt : (Atoi eDPSubmatch.1).toNat < s.cards.length :=
            (List.getElem?_eq_some.mp hget).1
          refine ⟨by simpa using hseen, ?_, ?_⟩
          · intro id ptr hm
            obtain ⟨c, hc, hcid⟩ := hdict id ptr hm
            by_cases hj : (Atoi eDPSubmatch.1).toNat = ptr
            · subst hj
              rw [hget] at hc
              cases hc
              exact ⟨{ card with eDP := true }, by simp [List.getElem?_set, hlt], hcid⟩
            · exact ⟨c, by simpa [List.getElem?_set, hj] using hc, hcid⟩
          · intro c hc
            rcases List.mem_or_eq_of_mem_set hc with hc | hc
            · exact hreg c hc
            · subst hc
              exact hreg card (List.getElem?_mem hget)

/-- The invariant is kept by the loop. -/
theorem probeEntries_inv (fs : SysFs) (names : List String) :
    ∀ (s p : Probe) (seen : List Int), ProbeInv s seen →
      (seen ++ cardNumbers names).Nodup →
      probeEntries fs names s = Outcome.returned p →
      ProbeInv p (seen ++ cardNumbers names) := by
  induction names with
  | nil =>
    intro s p seen hinv _ hrun
    simp only [probeEntries, Outcome.returned.injEq] at hrun
    subst hrun
    simpa [cardNumbers] using hinv
  | cons name names ih =>
    intro s p seen hinv hnd hrun
    have hsplit : cardNumbers (name :: names) = cardNumbers [name] ++ cardNumbers names := by
      have : name :: names = [name] ++ names := rfl
      rw [this]
      unfold cardNumbers
      rw [List.filterMap_append]
    rw [hsplit, ← List.append_assoc] at hnd ⊢
    unfold probeEntries at hrun
    cases hstep : probeEntry fs s name with
    | returned s1 =>
      simp only [hstep] at hrun
      have hnd1 : (seen ++ cardNumbers [name]).Nodup := (List.nodup_append.mp hnd).1
      exact ih s1 p _ (probeEntry_inv fs s s1 seen name hinv hnd1 hstep) hnd hrun
    | exited code => simp [hstep] at hrun
    | panicked i n => simp [hstep] at hrun

/-- On a listing in which no two card entries carry the same number, a probe that
completes returns an identifier index that agrees with the records: every entry
points to a record with that identifier, and every record is reachable through
its identifier. -/
theorem GetSystemCards_index (fs : SysFs) (probe : Probe)
    (hnd : (cardNumbers (fs.readDir drmPath)).Nodup)
    (hp : GetSystemCards fs = Outcome.returned probe) :
    (∀ id ptr, mapGet probe.idDict id = some ptr →
        ∃ c, probe.cards[ptr]? = some c ∧ c.id = id) ∧
      (∀ c ∈ probe.cards, ∃ ptr, mapGet probe.idDict c.id = some ptr) := by
  have hinit : ProbeInv ⟨[], []⟩ [] := by
    refine ⟨by simp, ?_, ?_⟩
    · intro id ptr hm
      simp [mapGet] at hm
    · intro c hc
      simp at hc
  have := probeEntries_inv fs (fs.readDir drmPath) ⟨[], []⟩ probe [] hinit
    (by simpa using hnd) hp
  exact this.2

/-! ## Orchestrator: explicit identifiers -/

/-- A directive that contains a colon is neither empty nor a role name. -/
theorem directive_with_colon (d : String) (h : Contains d ":" = true) :
    d ≠ "" ∧ d ≠ "integrated" ∧ d ≠ "prime-discrete" := by
  refine ⟨?_, ?_, ?_⟩ <;>
  · intro hd
    rw [hd] at h
    revert h
    decide

/-- Claim C9, as amended: for every directive that contains a colon and every
device tree in which no two card entries carry the same number, and on which the
probe completes: if some probed device has the directive as its identifier, `SetupPrimeOffload`
returns what `ChooseCard` returns for a probed device whose identifier is the
directive, with the effects of that call and no other; if no probed device has
that identifier, it exits with status 1 after the log line that reports the
directive, without any write to the environment map. -/
theorem SetupPrimeOffload_identifier {Rest : Type} (fs : SysFs) (bcfg : Binary Rest)
    (probe : Probe) (hnd : (cardNumbers (fs.readDir drmPath)).Nodup)
    (hp : GetSystemCards fs = Outcome.returned probe)
    (hcolon : Contains bcfg.ForcedGpu ":" = true) :
    ((∃ c ∈ probe.cards, c.id = bcfg.ForcedGpu) →
        ∃ c ∈ probe.cards, c.id = bcfg.ForcedGpu ∧
          SetupPrimeOffload fs bcfg
            = ⟨(ChooseCard fs bcfg c).2, Outcome.returned (ChooseCard fs bcfg c).1⟩) ∧
      ((¬ ∃ c ∈ probe.cards, c.id = bcfg.ForcedGpu) →
        SetupPrimeOffload fs bcfg
          = ⟨[Event.logNoSuchId bcfg.ForcedGpu], Outcome.exited 1⟩) := by
  obtain ⟨hdict, hreg⟩ := GetSystemCards_index fs probe hnd hp
  obtain ⟨h1, h2, h3⟩ := directive_with_colon bcfg.ForcedGpu hcolon
  constructor
  · rintro ⟨c, hc, hcid⟩
    obtain ⟨ptr, hptr⟩ := hreg c hc
    rw [hcid] at hptr
    obtain ⟨c2, hc2, hc2id⟩ := hdict _ ptr hptr
    refine ⟨c2, List.getElem?_mem hc2, hc2id, ?_⟩
    simp [SetupPrimeOffload, hp, h1, h2, h3, hcolon, hptr, hc2, returnChoice]
  · intro hnone
    have hlook : mapGet probe.idDict bcfg.ForcedGpu = none := by
      cases hl : mapGet probe.idDict bcfg.ForcedGpu with
      | none => rfl
      | some ptr =>
        obtain ⟨c, hc, hcid⟩ := hdict _ ptr hl
        exact absurd ⟨c, List.getElem?_mem hc, hcid⟩ hnone
    simp [SetupPrimeOffload, hp, h1, h2, h3, hcolon, hlook]

/-- Claim C9, as amended, on the laptop: the directive `10de:1f99` selects the discrete card,
whose identifier it is. -/
theorem SetupPrimeOffload_identifier_witness :
    (cardNumbers (laptopFs.readDir drmPath)).Nodup ∧
      GetSystemCards laptopFs
        = Outcome.returned ⟨[laptopCard0, laptopCard1], [("10de:1f99", 1), ("8086:9a49", 0)]⟩ ∧
      Contains (sampleConfig "OpenGL" "10de:1f99").ForcedGpu ":" = true ∧
      ∃ c ∈ [laptopCard0, laptopCard1], c.id = "10de:1f99" ∧
        SetupPrimeOffload laptopFs (sampleConfig "OpenGL" "10de:1f99")
          = ⟨(ChooseCard laptopFs (sampleConfig "OpenGL" "10de:1f99") c).2,
              Outcome.returned (ChooseCard laptopFs (sampleConfig "OpenGL" "10de:1f99") c).1⟩ :=
  ⟨by decide, by decide, by decide,
    (SetupPrimeOffload_identifier laptopFs (sampleConfig "OpenGL" "10de:1f99")
      ⟨[laptopCard0, laptopCard1], [("10de:1f99", 1), ("8086:9a49", 0)]⟩
      (by decide) (by decide) (by decide)).1 ⟨laptopCard1, by decide, rfl⟩⟩

/-! ## Orchestrator: index directives -/

/-- An index directive within the probed list returns what `ChooseCard` returns for
the device at that index, with the effects of that call and no other. -/
theorem SetupPrimeOffload_index_in_range {Rest : Type} (fs : SysFs) (bcfg : Binary Rest)
    (probe : Probe) (c : Card) (hp : GetSystemCards fs = Outcome.returned probe)
    (h1 : bcfg.ForcedGpu ≠ "") (h2 : bcfg.ForcedGpu ≠ "integrated")
    (h3 : bcfg.ForcedGpu ≠ "prime-discrete") (hcolon : Contains bcfg.ForcedGpu ":" = false)
    (hneg : ¬ Atoi bcfg.ForcedGpu < 0)
    (hget : probe.cards[(Atoi bcfg.ForcedGpu).toNat]? = some c) :
    SetupPrimeOffload fs bcfg
      = ⟨(ChooseCard fs bcfg c).2, Outcome.returned (ChooseCard fs bcfg c).1⟩ := by
  simp [SetupPrimeOffload, hp, h1, h2, h3, hcolon, hneg, hget, returnChoice]

/-- An index directive outside the probed list, negative or too large, ends in the
run-time panic of the slice access, with no effect before it. -/
theorem SetupPrimeOffload_index_panics {Rest : Type} (fs : SysFs) (bcfg : Binary Rest)
    (probe : Probe) (hp : GetSystemCards fs = Outcome.returned probe)
    (h1 : bcfg.ForcedGpu ≠ "") (h2 : bcfg.ForcedGpu ≠ "integrated")
    (h3 : bcfg.ForcedGpu ≠ "prime-discrete") (hcolon : Contains bcfg.ForcedGpu ":" = false)
    (hout : Atoi bcfg.ForcedGpu < 0 ∨ probe.cards.length ≤ (Atoi bcfg.ForcedGpu).toNat) :
    SetupPrimeOffload fs bcfg
      = ⟨[], Outcome.panicked (Atoi bcfg.ForcedGpu) probe.cards.length⟩ := by
  by_cases hneg : Atoi bcfg.ForcedGpu < 0
  · simp [SetupPrimeOffload, hp, h1, h2, h3, hcolon, hneg]
  · have hlen : probe.cards.length ≤ (Atoi bcfg.ForcedGpu).toNat := by
      rcases hout with h | h
      · exact absurd h hneg
      · exact h
    have hget : probe.cards[(Atoi bcfg.ForcedGpu).toNat]? = none :=
      List.getElem?_eq_none hlen
    simp [SetupPrimeOffload, hp, h1, h2, h3, hcolon, hneg, hget]

/-- Claim C10 fails on the code: on the laptop (two devices) the index directive
`5` ends `SetupPrimeOffload` in the run-time panic `index out of range [5] with
length 2`, and the directive `-1` in the panic `index out of range [-1]`; neither
run logs the offending index nor exits with status 1. -/
theorem SetupPrimeOffload_index_out_of_range :
    SetupPrimeOffload laptopFs (sampleConfig "OpenGL" "5") = ⟨[], Outcome.panicked 5 2⟩ ∧
      SetupPrimeOffload laptopFs (sampleConfig "OpenGL" "-1") = ⟨[], Outcome.panicked (-1) 2⟩ ∧
      (SetupPrimeOffload laptopFs (sampleConfig "OpenGL" "5")).out ≠ Outcome.exited 1 ∧
      Event.logNoSuchIndex 5 ∉ (SetupPrimeOffload laptopFs (sampleConfig "OpenGL" "5")).trace := by
  decide

/-! ## Device Prober: the internal-panel flag and the order of the records -/

/-- Claim C11 fails on the code: on a listing with the entries `card0`, `card1` and
`card1-eDP-1` the probe completes and sets the internal-panel flag of the record
of `card0`, which has no eDP entry, and leaves the flag of the record of `card1`
unset: the index is computed from the whole match `card1-eDP-1`, which is not a
number, instead of the captured card number. -/
theorem GetSystemCards_eDP_marks_card0 :
    eDPPattern "card1-eDP-1" = some ("card1-eDP-1", "1") ∧
      Atoi "card1-eDP-1" = 0 ∧ Atoi "1" = 1 ∧
      GetSystemCards panelOnCard1Fs
        = Outcome.returned
            ⟨[⟨"/sys/class/drm/card0", true, "10de:25a2"⟩,
                ⟨"/sys/class/drm/card1", false, "1002:1638"⟩],
              [("1002:1638", 1), ("10de:25a2", 0)]⟩ := by
  decide

/-- Claim C12 fails on the code: on a listing whose only card entry is `card1` the
probe appends one record and then writes to position 1 of the slice, which ends
in the run-time panic `index out of range [1] with length 1`. -/
theorem GetSystemCards_panics_without_card0 :
    loneCard1Fs.readDir drmPath = ["card1", "renderD128", "version"] ∧
      cardPattern "card1" = some ("card1", "1") ∧
      GetSystemCards loneCard1Fs = Outcome.panicked 1 1 := by
  decide

/-! ## Device Selector: the three entries -/

/-- After `setIfUndefined` the key has the value of the caller when it had one, and
the proposed value otherwise. -/
theorem setIfUndefined_get (env : Environment) (k v : String) :
    mapGet (setIfUndefined env k v).1 k = some ((mapGet env k).getD v) := by
  cases h : mapGet env k with
  | none => simpa using setIfUndefined_sets env k v h
  | some w => simpa using setIfUndefined_keeps env k v k w h

/-- The environment map returned by `ChooseCard` is the result of the three calls of
`setIfUndefined`. -/
theorem ChooseCard_env_eq {Rest : Type} (fs : SysFs) (bcfg : Binary Rest) (c : Card) :
    (ChooseCard fs bcfg c).1.Env
      = (setIfUndefined (setIfUndefined (setIfUndefined bcfg.Env
          "MESA_VK_DEVICE_SELECT_FORCE_DEFAULT_DEVICE" "1").1 "DRI_PRIME" c.id).1
          "__GLX_VENDOR_LIBRARY_NAME" (vendorLibrary fs c)).1 := by
  unfold ChooseCard vendorLibrary
  by_cases hs : HasSuffix (fs.evalSymlinks (Join [c.path, "device/driver"])) "nvidia" = true
  · simp [hs]
  · simp [hs]

/-- Claim C14: after `ChooseCard` each of the three keys has the value of the caller
when the configuration defined it and the computed value otherwise (`1`, the
identifier of the card, and `nvidia` or `mesa`), and every other key has the
presence and value it had before; in particular, on a configuration that defines
none of the three keys the map has `MESA_VK_DEVICE_SELECT_FORCE_DEFAULT_DEVICE`
equal to `1`, `DRI_PRIME` equal to the identifier of the card and
`__GLX_VENDOR_LIBRARY_NAME` equal to `nvidia` or to `mesa`. -/
theorem ChooseCard_env {Rest : Type} (fs : SysFs) (bcfg : Binary Rest) (c : Card) :
    (mapGet (ChooseCard fs bcfg c).1.Env "MESA_VK_DEVICE_SELECT_FORCE_DEFAULT_DEVICE"
        = some ((mapGet bcfg.Env "MESA_VK_DEVICE_SELECT_FORCE_DEFAULT_DEVICE").getD "1") ∧
      mapGet (ChooseCard fs bcfg c).1.Env "DRI_PRIME"
        = some ((mapGet bcfg.Env "DRI_PRIME").getD c.id) ∧
      mapGet (ChooseCard fs bcfg c).1.Env "__GLX_VENDOR_LIBRARY_NAME"
        = some ((mapGet bcfg.Env "__GLX_VENDOR_LIBRARY_NAME").getD (vendorLibrary fs c)) ∧
      (vendorLibrary fs c = "nvidia" ∨ vendorLibrary fs c = "mesa") ∧
      (∀ k, k ≠ "MESA_VK_DEVICE_SELECT_FORCE_DEFAULT_DEVICE" → k ≠ "DRI_PRIME" →
        k ≠ "__GLX_VENDOR_LIBRARY_NAME" →
        mapGet (ChooseCard fs bcfg c).1.Env k = mapGet bcfg.Env k)) ∧
    (mapGet bcfg.Env "MESA_VK_DEVICE_SELECT_FORCE_DEFAULT_DEVICE" = none →
      mapGet bcfg.Env "DRI_PRIME" = none →
      mapGet bcfg.Env "__GLX_VENDOR_LIBRARY_NAME" = none →
      mapGet (ChooseCard fs bcfg c).1.Env "MESA_VK_DEVICE_SELECT_FORCE_DEFAULT_DEVICE"
          = some "1" ∧
        mapGet (ChooseCard fs bcfg c).1.Env "DRI_PRIME" = some c.id ∧
        (mapGet (ChooseCard fs bcfg c).1.Env "__GLX_VENDOR_LIBRARY_NAME" = some "nvidia" ∨
          mapGet (ChooseCard fs bcfg c).1.Env "__GLX_VENDOR_LIBRARY_NAME" = some "mesa")) := by
  have hmesa : mapGet (ChooseCard fs bcfg c).1.Env "MESA_VK_DEVICE_SELECT_FORCE_DEFAULT_DEVICE"
      = some ((mapGet bcfg.Env "MESA_VK_DEVICE_SELECT_FORCE_DEFAULT_DEVICE").getD "1") := by
    rw [ChooseCard_env_eq, setIfUndefined_other _ _ _ _ (by decide),
      setIfUndefined_other _ _ _ _ (by decide), setIfUndefined_get]
  have hprime : mapGet (ChooseCard fs bcfg c).1.Env "DRI_PRIME"
      = some ((mapGet bcfg.Env "DRI_PRIME").getD c.id) := by
    rw [ChooseCard_env_eq, setIfUndefined_other _ _ _ _ (by decide), setIfUndefined_get,
      setIfUndefined_other _ _ _ _ (by decide)]
  have hglx : mapGet (ChooseCard fs bcfg c).1.Env "__GLX_VENDOR_LIBRARY_NAME"
      = some ((mapGet bcfg.Env "__GLX_VENDOR_LIBRARY_NAME").getD (vendorLibrary fs c)) := by
    rw [ChooseCard_env_eq, setIfUndefined_get, vendor_before_last]
  have hvendor : vendorLibrary fs c = "nvidia" ∨ vendorLibrary fs c = "mesa" := by
    unfold vendorLibrary
    by_cases hs : HasSuffix (fs.evalSymlinks (Join [c.path, "device/driver"])) "nvidia" = true
    · exact Or.inl (by simp [hs])
    · exact Or.inr (by simp [hs])
  refine ⟨⟨hmesa, hprime, hglx, hvendor, ?_⟩, ?_⟩
  · intro k h1 h2 h3
    rw [ChooseCard_env_eq, setIfUndefined_other _ _ _ _ h3, setIfUndefined_other _ _ _ _ h2,
      setIfUndefined_other _ _ _ _ h1]
  · intro h1 h2 h3
    rw [h1] at hmesa
    rw [h2] at hprime
    rw [h3] at hglx
    refine ⟨hmesa, hprime, ?_⟩
    rcases hvendor with hv | hv
    · exact Or.inl (by rw [hglx, hv]; rfl)
    · exact Or.inr (by rw [hglx, hv]; rfl)

/-- Claim C14 on the discrete card of the laptop and a configuration with an empty
environment map. -/
theorem ChooseCard_env_witness :
    mapGet (ChooseCard laptopFs (sampleConfig "OpenGL" "prime-discrete") laptopCard1).1.Env
        "MESA_VK_DEVICE_SELECT_FORCE_DEFAULT_DEVICE" = some "1" ∧
      mapGet (ChooseCard laptopFs (sampleConfig "OpenGL" "prime-discrete") laptopCard1).1.Env
        "DRI_PRIME" = some "10de:1f99" ∧
      (mapGet (ChooseCard laptopFs (sampleConfig "OpenGL" "prime-discrete") laptopCard1).1.Env
          "__GLX_VENDOR_LIBRARY_NAME" = some "nvidia" ∨
        mapGet (ChooseCard laptopFs (sampleConfig "OpenGL" "prime-discrete") laptopCard1).1.Env
          "__GLX_VENDOR_LIBRARY_NAME" = some "mesa") :=
  (ChooseCard_env laptopFs (sampleConfig "OpenGL" "prime-discrete") laptopCard1).2
    (by decide) (by decide) (by decide)

/-! ## Orchestrator: role directives the policy denies -/

/-- `PrimeIsAllowed` never writes to the environment map. -/
theorem PrimeIsAllowed_no_write {Rest : Type} (cards : List Card) (bcfg : Binary Rest)
    (k v : String) : Event.envSet k v ∉ (PrimeIsAllowed cards bcfg).trace := by
  unfold PrimeIsAllowed
  repeat' split
  all_goals simp

/-- The lists and configurations on which `PrimeIsAllowed` returns `false`: fewer
than two devices, two devices without the internal panel on device 0, or three
and more devices with the Vulkan renderer or the translation layer. -/
theorem PrimeIsAllowed_false_iff {Rest : Type} (cards : List Card) (bcfg : Binary Rest) :
    (PrimeIsAllowed cards bcfg).out = Outcome.returned false ↔
      (cards.length ≤ 1 ∨
        (cards.length = 2 ∧ ∃ c0, cards[0]? = some c0 ∧ c0.eDP = false) ∨
        (3 ≤ cards.length ∧ (bcfg.Renderer = "Vulkan" ∨ bcfg.Dxvk = true))) := by
  by_cases h1 : cards.length ≤ 1
  · simp [PrimeIsAllowed, h1]
  · by_cases h2 : cards.length > 2
    · have h3 : 3 ≤ cards.length := h2
      have hne : ¬ cards.length = 2 := by omega
      cases hx : bcfg.Dxvk <;> by_cases hr : bcfg.Renderer = "Vulkan" <;>
        simp [PrimeIsAllowed, h1, h2, h3, hne, hx, hr]
    · have h2eq : cards.length = 2 := by omega
      have h3 : ¬ 3 ≤ cards.length := by omega
      match cards, h2eq with
      | [c0, c1], _ =>
        cases he : c0.eDP <;> simp [PrimeIsAllowed, he]

/-- Claim C15: with the directive `integrated` or `prime-discrete`, on every probed
list on which `PrimeIsAllowed` returns `false` (fewer than two devices, two
devices without the internal panel on device 0, or three and more devices with
Vulkan or the translation layer), `SetupPrimeOffload` returns the very
configuration it was given; its only effects are the log lines of
`PrimeIsAllowed`, and the environment map is not written. -/
theorem SetupPrimeOffload_role_denied {Rest : Type} (fs : SysFs) (bcfg : Binary Rest)
    (probe : Probe) (hp : GetSystemCards fs = Outcome.returned probe)
    (hd : bcfg.ForcedGpu = "integrated" ∨ bcfg.ForcedGpu = "prime-discrete")
    (hdenied : probe.cards.length ≤ 1 ∨
      (probe.cards.length = 2 ∧ ∃ c0, probe.cards[0]? = some c0 ∧ c0.eDP = false) ∨
      (3 ≤ probe.cards.length ∧ (bcfg.Renderer = "Vulkan" ∨ bcfg.Dxvk = true))) :
    (PrimeIsAllowed probe.cards bcfg).out = Outcome.returned false ∧
      SetupPrimeOffload fs bcfg
        = ⟨(PrimeIsAllowed probe.cards bcfg).trace, Outcome.returned bcfg⟩ ∧
      (∀ k v, Event.envSet k v ∉ (SetupPrimeOffload fs bcfg).trace) ∧
      (∀ path id, Event.logChoseCard path id ∉ (SetupPrimeOffload fs bcfg).trace) := by
  have hpa := (PrimeIsAllowed_false_iff probe.cards bcfg).mpr hdenied
  have hrun : SetupPrimeOffload fs bcfg
      = ⟨(PrimeIsAllowed probe.cards bcfg).trace, Outcome.returned bcfg⟩ := by
    rcases hall : PrimeIsAllowed probe.cards bcfg with ⟨t, o⟩
    rw [hall] at hpa
    simp only at hpa
    subst hpa
    rcases hd with hd | hd <;> simp +decide [SetupPrimeOffload, hp, hd, roleCase, hall]
  refine ⟨hpa, hrun, ?_, ?_⟩
  · intro k v
    rw [hrun]
    exact PrimeIsAllowed_no_write probe.cards bcfg k v
  · intro path id
    rw [hrun]
    show Event.logChoseCard path id ∉ (PrimeIsAllowed probe.cards bcfg).trace
    unfold PrimeIsAllowed
    repeat' split
    all_goals simp

/-- Claim C15 on the workstation with the Vulkan renderer and the directive
`prime-discrete`. -/
theorem SetupPrimeOffload_role_denied_witness :
    SetupPrimeOffload workstationFs (sampleConfig "Vulkan" "prime-discrete")
      = ⟨[Event.logManyCardsVulkan 3],
          Outcome.returned (sampleConfig "Vulkan" "prime-discrete")⟩ :=
  ((SetupPrimeOffload_role_denied workstationFs (sampleConfig "Vulkan" "prime-discrete")
      ⟨[workstationCard0, ⟨"/sys/class/drm/card1", false, "1002:73bf"⟩,
          ⟨"/sys/class/drm/card2", false, "10de:2204"⟩],
        [("10de:2204", 2), ("1002:73bf", 1), ("1002:7340", 0)]⟩
      (by decide) (Or.inr rfl) (Or.inr (Or.inr ⟨by decide, Or.inl rfl⟩))).2.1).trans
    (by decide)

/-! ## Only the environment map changes -/

/-- The configuration returned by `ChooseCard` differs from its argument in the
environment map at most. -/
theorem ChooseCard_sameButEnv {Rest : Type} (fs : SysFs) (bcfg : Binary Rest) (c : Card) :
    SameButEnv (ChooseCard fs bcfg c).1 bcfg :=
  ⟨rfl, rfl, rfl, rfl⟩

/-- A configuration returned by a role case differs from the given one in the
environment map at most. -/
theorem roleCase_sameButEnv {Rest : Type} (fs : SysFs) (bcfg b : Binary Rest)
    (cards : List Card) (k : Nat) (h : (roleCase fs bcfg cards k).out = Outcome.returned b) :
    SameButEnv b bcfg := by
  unfold roleCase at h
  split at h
  · simp only [Outcome.returned.injEq] at h
    subst h
    exact ⟨rfl, rfl, rfl, rfl⟩
  · split at h
    · simp only [returnChoice, Outcome.returned.injEq] at h
      subst h
      exact ChooseCard_sameButEnv fs bcfg _
    · cases h
  · cases h
  · cases h

/-- Claim C16: the configuration returned by `ChooseCard`, and the configuration
returned by `SetupPrimeOffload` on every run that returns, has the renderer
indicator, the translation-layer flag, the forced-GPU directive and every other
field but the environment map equal to those of the configuration given. -/
theorem SetupPrimeOffload_sameButEnv {Rest : Type} (fs : SysFs) (bcfg : Binary Rest) :
    (∀ c, (ChooseCard fs bcfg c).1.Renderer = bcfg.Renderer ∧
        (ChooseCard fs bcfg c).1.Dxvk = bcfg.Dxvk ∧
        (ChooseCard fs bcfg c).1.ForcedGpu = bcfg.ForcedGpu ∧
        (ChooseCard fs bcfg c).1.rest = bcfg.rest) ∧
      (∀ b, (SetupPrimeOffload fs bcfg).out = Outcome.returned b →
        b.Renderer = bcfg.Renderer ∧ b.Dxvk = bcfg.Dxvk ∧ b.ForcedGpu = bcfg.ForcedGpu ∧
          b.rest = bcfg.rest) := by
  refine ⟨fun c => ⟨rfl, rfl, rfl, rfl⟩, ?_⟩
  intro b h
  have key : SameButEnv b bcfg := by
    unfold SetupPrimeOffload at h
    split at h
    · simp only [Outcome.returned.injEq] at h
      subst h
      exact ⟨rfl, rfl, rfl, rfl⟩
    · split at h
      · cases h
      · cases h
      · split at h
        · exact roleCase_sameButEnv fs bcfg b _ 0 h
        · split at h
          · exact roleCase_sameButEnv fs bcfg b _ 1 h
          · split at h
            · split at h
              · cases h
              · split at h
                · simp only [returnChoice, Outcome.returned.injEq] at h
                  subst h
                  exact ChooseCard_sameButEnv fs bcfg _
                · cases h
            · simp only at h
              split at h
              · cases h
              · split at h
                · simp only [returnChoice, Outcome.returned.injEq] at h
                  subst h
                  exact ChooseCard_sameButEnv fs bcfg _
                · cases h
  exact ⟨key.2.1, key.1, key.2.2.1, key.2.2.2⟩

/-- Claim C16 on the laptop with the directive `prime-discrete`: the run returns, and
the returned configuration has the renderer, flag and directive of the input. -/
theorem SetupPrimeOffload_sameButEnv_witness :
    (SetupPrimeOffload laptopFs (sampleConfig "OpenGL" "prime-discrete")).out
        = Outcome.returned
            ⟨[("__GLX_VENDOR_LIBRARY_NAME", "nvidia"), ("DRI_PRIME", "10de:1f99"),
                ("MESA_VK_DEVICE_SELECT_FORCE_DEFAULT_DEVICE", "1")],
              false, "OpenGL", "prime-discrete", ()⟩ ∧
      (⟨[("__GLX_VENDOR_LIBRARY_NAME", "nvidia"), ("DRI_PRIME", "10de:1f99"),
            ("MESA_VK_DEVICE_SELECT_FORCE_DEFAULT_DEVICE", "1")],
          false, "OpenGL", "prime-discrete", ()⟩ : Binary Unit).Renderer
        = (sampleConfig "OpenGL" "prime-discrete").Renderer :=
  ⟨by decide,
    ((SetupPrimeOffload_sameButEnv laptopFs (sampleConfig "OpenGL" "prime-discrete")).2
      ⟨[("__GLX_VENDOR_LIBRARY_NAME", "nvidia"), ("DRI_PRIME", "10de:1f99"),
          ("MESA_VK_DEVICE_SELECT_FORCE_DEFAULT_DEVICE", "1")],
        false, "OpenGL", "prime-discrete", ()⟩ (by decide)).1⟩

/-! ## Index safety of the role cases -/

/-- When `PrimeIsAllowed` returns `true` the list has exactly two devices. -/
theorem PrimeIsAllowed_true_length {Rest : Type} (cards : List Card) (bcfg : Binary Rest)
    (h : (PrimeIsAllowed cards bcfg).out = Outcome.returned true) : cards.length = 2 := by
  unfold PrimeIsAllowed at h
  split at h
  · simp at h
  · split at h
    · split at h <;> simp at h
    · omega

/-- The read `cards[0]` of `PrimeIsAllowed` is always in range. -/
theorem PrimeIsAllowed_no_panic {Rest : Type} (cards : List Card) (bcfg : Binary Rest)
    (i : Int) (n : Nat) : (PrimeIsAllowed cards bcfg).out ≠ Outcome.panicked i n := by
  unfold PrimeIsAllowed
  split
  · simp
  · split
    · split <;> simp
    · rename_i h1 h2
      have hlen : 0 < cards.length := by omega
      split
      · rename_i hnone
        have := List.getElem?_eq_none_iff.mp hnone
        omega
      · split <;> simp

/-- Claim C18: if `PrimeIsAllowed` returns `true` then the list has exactly two
devices; the read of `cards[0]` inside `PrimeIsAllowed` never panics; and the
reads `cards[0]` and `cards[1]` of the cases `integrated` and `prime-discrete`
never panic either, so that `SetupPrimeOffload` with a role directive, once the
probe has returned, never ends in an out-of-range panic. -/
theorem role_reads_in_range {Rest : Type} (fs : SysFs) (bcfg : Binary Rest) (probe : Probe) :
    ((PrimeIsAllowed probe.cards bcfg).out = Outcome.returned true →
        probe.cards.length = 2 ∧ (∃ c0, probe.cards[0]? = some c0) ∧
          (∃ c1, probe.cards[1]? = some c1)) ∧
      (∀ i n, (PrimeIsAllowed probe.cards bcfg).out ≠ Outcome.panicked i n) ∧
      (∀ i n, (roleCase fs bcfg probe.cards 0).out ≠ Outcome.panicked i n) ∧
      (∀ i n, (roleCase fs bcfg probe.cards 1).out ≠ Outcome.panicked i n) ∧
      (GetSystemCards fs = Outcome.returned probe →
        bcfg.ForcedGpu = "integrated" ∨ bcfg.ForcedGpu = "prime-discrete" →
        ∀ i n, (SetupPrimeOffload fs bcfg).out ≠ Outcome.panicked i n) := by
  have hrole : ∀ k, k < 2 → ∀ i n,
      (roleCase fs bcfg probe.cards k).out ≠ Outcome.panicked i n := by
    intro k hk i n
    rcases hall : PrimeIsAllowed probe.cards bcfg with ⟨t, o⟩
    have hlen := PrimeIsAllowed_true_length probe.cards bcfg
    have hnp := PrimeIsAllowed_no_panic probe.cards bcfg
    rw [hall] at hlen hnp
    simp only at hlen hnp
    unfold roleCase
    rw [hall]
    cases o with
    | returned b =>
      cases b with
      | false => simp
      | true =>
        have h2 := hlen rfl
        have hlt : k < probe.cards.length := by omega
        have hsome : probe.cards[k]? = some probe.cards[k] := List.getElem?_eq_getElem hlt
        simp [hsome, returnChoice]
    | exited code => simp
    | panicked j m => exact absurd rfl (hnp j m)
  refine ⟨?_, PrimeIsAllowed_no_panic probe.cards bcfg, hrole 0 (by omega),
    hrole 1 (by omega), ?_⟩
  · intro h
    have h2 := PrimeIsAllowed_true_length probe.cards bcfg h
    refine ⟨h2, ⟨probe.cards[0], List.getElem?_eq_getElem (by omega)⟩,
      ⟨probe.cards[1], List.getElem?_eq_getElem (by omega)⟩⟩
  · intro hp hd i n
    rcases hd with hd | hd
    · have : SetupPrimeOffload fs bcfg = roleCase fs bcfg probe.cards 0 := by
        simp +decide [SetupPrimeOffload, hp, hd]
      rw [this]
      exact hrole 0 (by omega) i n
    · have : SetupPrimeOffload fs bcfg = roleCase fs bcfg probe.cards 1 := by
        simp +decide [SetupPrimeOffload, hp, hd]
      rw [this]
      exact hrole 1 (by omega) i n

/-- Claim C18 on the laptop: the policy returns `true`, the list has two devices and
both positions can be read. -/
theorem role_reads_in_range_witness :
    (PrimeIsAllowed [laptopCard0, laptopCard1] (sampleConfig "OpenGL" "integrated")).out
        = Outcome.returned true ∧
      [laptopCard0, laptopCard1].length = 2 ∧
      (∃ c0, [laptopCard0, laptopCard1][0]? = some c0) ∧
      (∃ c1, [laptopCard0, laptopCard1][1]? = some c1) :=
  ⟨by decide,
    (role_reads_in_range laptopFs (sampleConfig "OpenGL" "integrated")
      ⟨[laptopCard0, laptopCard1], [("10de:1f99", 1), ("8086:9a49", 0)]⟩).1 (by decide)⟩

/-! ## Orchestrator: directives that are not numbers -/

/-- On a text that is not a decimal integer `Atoi` yields `0`. -/
theorem Atoi_of_not_decimal (s : String) (h : ¬ IsDecimalInteger s) : Atoi s = 0 := by
  have key : ∀ sign body : List Char, (sign = [] ∨ sign = ['+'] ∨ sign = ['-']) →
      s.data = sign ++ body → ¬ (body ≠ [] ∧ body.all Char.isDigit = true) := by
    intro sign body hsign heq hbody
    exact h ⟨sign, body, hsign, hbody.1, fun c hc => List.all_eq_true.mp hbody.2 c hc, heq⟩
  unfold Atoi
  split
  · rename_i r hr
    have := key ['+'] r (Or.inr (Or.inl rfl)) (by simpa using hr)
    simp only [this, if_false]
  · rename_i r hr
    have := key ['-'] r (Or.inr (Or.inr rfl)) (by simpa using hr)
    simp only [this, if_false]
  · have := key [] s.data (Or.inl rfl) (by simp)
    simp only [this, if_false]

/-- A text that starts with a character other than a sign or a digit is not a
decimal integer. -/
theorem not_decimal_of_head (s : String) (c : Char) (r : List Char) (hs : s.data = c :: r)
    (hplus : c ≠ '+') (hminus : c ≠ '-') (hdigit : c.isDigit = false) :
    ¬ IsDecimalInteger s := by
  rintro ⟨sign, digits, hsign, hne, hdig, heq⟩
  rw [hs] at heq
  rcases hsign with rfl | rfl | rfl
  · cases digits with
    | nil => exact hne rfl
    | cons d ds =>
      simp only [List.nil_append, List.cons.injEq] at heq
      have := hdig d (List.mem_cons_self d ds)
      rw [← heq.1, hdigit] at this
      cases this
  · simp only [List.singleton_append, List.cons.injEq] at heq
    exact hplus heq.1
  · simp only [List.singleton_append, List.cons.injEq] at heq
    exact hminus heq.1

/-- Claim C20: for a directive that is not empty, not a role name, has no colon and
is not a decimal integer, the index computed by `Atoi` is 0, and on every probed
list with at least one device `SetupPrimeOffload` returns what `ChooseCard`
returns for device 0, with the effects of that call and no other: it neither
exits nor logs a configuration error. -/
theorem SetupPrimeOffload_not_a_number {Rest : Type} (fs : SysFs) (bcfg : Binary Rest)
    (idDict : List (String × Nat)) (c0 : Card) (others : List Card)
    (hp : GetSystemCards fs = Outcome.returned ⟨c0 :: others, idDict⟩)
    (h1 : bcfg.ForcedGpu ≠ "") (h2 : bcfg.ForcedGpu ≠ "integrated")
    (h3 : bcfg.ForcedGpu ≠ "prime-discrete") (hcolon : Contains bcfg.ForcedGpu ":" = false)
    (hnum : ¬ IsDecimalInteger bcfg.ForcedGpu) :
    Atoi bcfg.ForcedGpu = 0 ∧
      SetupPrimeOffload fs bcfg
        = ⟨(ChooseCard fs bcfg c0).2, Outcome.returned (ChooseCard fs bcfg c0).1⟩ := by
  have h0 := Atoi_of_not_decimal bcfg.ForcedGpu hnum
  refine ⟨h0, ?_⟩
  simp [SetupPrimeOffload, hp, h1, h2, h3, hcolon, h0, returnChoice]

/-- Claim C20 on the laptop with the directive `discrete`: the integrated card,
device 0, is chosen. -/
theorem SetupPrimeOffload_not_a_number_witness :
    ¬ IsDecimalInteger (sampleConfig "OpenGL" "discrete").ForcedGpu ∧
      Atoi (sampleConfig "OpenGL" "discrete").ForcedGpu = 0 ∧
      SetupPrimeOffload laptopFs (sampleConfig "OpenGL" "discrete")
        = ⟨(ChooseCard laptopFs (sampleConfig "OpenGL" "discrete") laptopCard0).2,
            Outcome.returned
              (ChooseCard laptopFs (sampleConfig "OpenGL" "discrete") laptopCard0).1⟩ :=
  ⟨not_decimal_of_head "discrete" 'd' "iscrete".data rfl (by decide) (by decide) (by decide),
    SetupPrimeOffload_not_a_number laptopFs (sampleConfig "OpenGL" "discrete")
      [("10de:1f99", 1), ("8086:9a49", 0)] laptopCard0 [laptopCard1]
      (by decide) (by decide) (by decide) (by decide) (by decide)
      (not_decimal_of_head "discrete" 'd' "iscrete".data rfl (by decide) (by decide)
        (by decide))⟩

/-! ## Device Prober: the form of the identifier -/

/-- Lowering a character never yields an upper-case ASCII letter. -/
theorem toLower_not_upper (c : Char) : c.toLower.isUpper = false := by
  unfold Char.toLower
  simp only []
  split
  · rename_i h
    generalize c.toNat = n at h
    obtain ⟨h1, h2⟩ := h
    interval_cases n <;> decide
  · rename_i h
    cases hu : c.isUpper with
    | false => rfl
    | true =>
      exfalso
      apply h
      unfold Char.isUpper at hu
      simp only [ge_iff_le, Bool.and_eq_true, decide_eq_true_eq] at hu
      exact hu

/-- Lowering a character other than the newline never yields the newline. -/
theorem toLower_ne_newline (c : Char) (h : c ≠ '\n') : c.toLower ≠ '\n' := by
  unfold Char.toLower
  simp only []
  split
  · rename_i hr
    generalize c.toNat = n at hr
    obtain ⟨h1, h2⟩ := hr
    interval_cases n <;> decide
  · exact h

/-- Replacing the newline by the empty text removes the newlines, and nothing else. -/
theorem ReplaceAll_newline (s : String) :
    (ReplaceAll s '\n' "").data = s.data.filter (fun c => c != '\n') := by
  unfold ReplaceAll
  simp only
  induction s.data with
  | nil => rfl
  | cons c cs ih =>
    rw [List.flatMap_cons, ih]
    by_cases hc : c = '\n'
    · simp [List.filter_cons, hc]
    · simp [List.filter_cons, hc]

/-- Removing `0x` from a content that starts with it. -/
theorem CutPrefix_0x (rest : String) : (CutPrefix ("0x" ++ rest) "0x").data = rest.data := by
  have hp : HasPrefix ("0x" ++ rest) "0x" = true := by
    unfold HasPrefix
    show List.isPrefixOf ['0', 'x'] ('0' :: 'x' :: rest.data) = true
    simp [List.isPrefixOf]
  unfold CutPrefix
  rw [if_pos hp]
  show List.drop 2 ('0' :: 'x' :: rest.data) = rest.data
  rfl

/-- The record a card entry writes to, when the body of the loop does not panic:
it is the record at the position given by the number in the name, and it gets
the path and the identifier of the entry. -/
theorem probeEntry_card (fs : SysFs) (s s1 : Probe) (name : String)
    (submatch : String × String) (hcp : cardPattern name = some submatch)
    (hstep : probeEntry fs s name = Outcome.returned s1) :
    ∃ c, s1.cards[(Atoi submatch.2).toNat]? = some c ∧ c.path = Join [drmPath, name] ∧
      c.id = entryId fs name ∧
      mapGet s1.idDict (entryId fs name) = some (Atoi submatch.2).toNat := by
  unfold probeEntry at hstep
  simp only [hcp] at hstep
  by_cases hneg : Atoi submatch.2 < 0
  · simp [hneg] at hstep
  · simp only [hneg, if_false] at hstep
    cases hget : (s.cards ++ [default])[(Atoi submatch.2).toNat]? with
    | none => simp [hget] at hstep
    | some card =>
      simp only [hget, Outcome.returned.injEq] at hstep
      subst hstep
      have hlt : (Atoi submatch.2).toNat < (s.cards ++ [default]).length :=
        (List.getElem?_eq_some.mp hget).1
      refine ⟨{ card with path := Join [drmPath, name], id := entryId fs name }, ?_, rfl, rfl,
        ?_⟩
      · simp only [List.getElem?_set, hlt, if_true]
        rfl
      · exact mapGet_mapSet_self _ _ _

/-- A hexadecimal digit is an ASCII character other than the newline. -/
theorem isHexDigit_ascii (c : Char) (h : isHexDigit c = true) : c.toNat ≤ 127 ∧ c ≠ '\n' := by
  constructor
  · unfold isHexDigit at h
    simp only [Bool.or_eq_true, Bool.and_eq_true, decide_eq_true_eq] at h
    rcases h with (h | h) | h
    · have hd : 48 ≤ c.toNat ∧ c.toNat ≤ 57 := by
        unfold Char.isDigit at h
        simp only [ge_iff_le, Bool.and_eq_true, decide_eq_true_eq] at h
        exact h
      omega
    · omega
    · omega
  · intro heq
    rw [heq] at h
    revert h
    decide

/-- On a rune of the ASCII range `unicode.ToLower` does not consult the table. -/
theorem unicodeToLower_ascii (table : Char → Char) (c : Char) (h : c.toNat ≤ 127) :
    unicodeToLower table c = c.toLower := by
  unfold unicodeToLower
  rw [if_pos h]

/-- The text of an identifier: the lowered text of the two contents without their
`0x`, joined by a colon, without the newlines. -/
theorem deviceId_data (table : Char → Char) (vid did : String) :
    (deviceId table vid did).data
      = (((CutPrefix vid "0x").data ++ ':' :: (CutPrefix did "0x").data).map
          (unicodeToLower table)).filter (fun c => c != '\n') := by
  have hcolon : ":".data = [':'] := rfl
  unfold deviceId
  rw [ReplaceAll_newline]
  simp only [ToLower, String.data_append, hcolon, List.append_assoc, List.singleton_append]

/-- No identifier holds a newline, whatever the two contents and the case table. -/
theorem deviceId_no_newline (table : Char → Char) (vid did : String) :
    '\n' ∉ (deviceId table vid did).data := by
  rw [deviceId_data]
  intro h
  have := (List.mem_filter.mp h).2
  simp at this

/-- An upper-case ASCII letter in an identifier can only be the image, in the case
table, of a rune outside ASCII. -/
theorem deviceId_upper (table : Char → Char) (vid did : String) (ch : Char)
    (h : ch ∈ (deviceId table vid did).data) (hup : ch.isUpper = true) :
    ∃ r, 127 < r.toNat ∧ table r = ch := by
  rw [deviceId_data] at h
  obtain ⟨c, -, hc⟩ := List.mem_map.mp (List.mem_filter.mp h).1
  by_cases hascii : c.toNat ≤ 127
  · rw [unicodeToLower_ascii table c hascii] at hc
    rw [← hc, toLower_not_upper] at hup
    cases hup
  · refine ⟨c, by omega, ?_⟩
    unfold unicodeToLower at hc
    rw [if_neg hascii] at hc
    exact hc

/-- The lowered text of hexadecimal digits does not depend on the case table, and
filtering the newlines out of it changes nothing. -/
theorem lowered_hex (table : Char → Char) (l : List Char) (h : ∀ c ∈ l, isHexDigit c = true) :
    l.map (unicodeToLower table) = l.map Char.toLower ∧
      (l.map (unicodeToLower table)).filter (fun c => c != '\n')
        = l.map (unicodeToLower table) := by
  have hmap : l.map (unicodeToLower table) = l.map Char.toLower := by
    apply List.map_congr_left
    intro c hc
    exact unicodeToLower_ascii table c (isHexDigit_ascii c (h c hc)).1
  refine ⟨hmap, ?_⟩
  rw [hmap]
  apply List.filter_eq_self.mpr
  intro a ha
  obtain ⟨c, hc, hca⟩ := List.mem_map.mp ha
  have := toLower_ne_newline c (isHexDigit_ascii c (h c hc)).2
  rw [hca] at this
  simpa using this

/-- The identifier built from two well-formed attribute contents. -/
theorem deviceId_hex (table : Char → Char) (V D : String)
    (hV : ∀ c ∈ V.data, isHexDigit c = true) (hD : ∀ c ∈ D.data, isHexDigit c = true) :
    deviceId table ("0x" ++ V ++ "\n") ("0x" ++ D ++ "\n")
      = ToLower table V ++ ":" ++ ToLower table D := by
  apply String.ext
  rw [deviceId_data, String.append_assoc "0x" V, String.append_assoc "0x" D, CutPrefix_0x,
    CutPrefix_0x]
  have hcolon : unicodeToLower table ':' = ':' := by
    rw [unicodeToLower_ascii table ':' (by decide)]
    decide
  have hnl : unicodeToLower table '\n' = '\n' := by
    rw [unicodeToLower_ascii table '\n' (by decide)]
    decide
  have hcolonData : ":".data = [':'] := rfl
  have hnlData : "\n".data = ['\n'] := rfl
  simp only [String.data_append, ToLower, hcolonData, hnlData, List.map_append, List.map_cons,
    List.map_nil, List.filter_append, List.filter_cons, List.filter_nil, hcolon, hnl,
    (lowered_hex table V.data hV).2, (lowered_hex table D.data hD).2]
  simp

/-- What the body of the loop does when it returns, on any listing: a card entry
appends a record and then writes the path and the identifier to the record at
the position given by the number of the entry, to which it points the identifier
index; any other entry leaves the index, and the path and identifier of every
record, as they are. -/
theorem probeEntry_cases (fs : SysFs) (s s1 : Probe) (name : String)
    (hstep : probeEntry fs s name = Outcome.returned s1) :
    (∃ submatch card, cardPattern name = some submatch ∧ 0 ≤ Atoi submatch.2 ∧
        (s.cards ++ [default])[(Atoi submatch.2).toNat]? = some card ∧
        s1 = ⟨(s.cards ++ [default]).set (Atoi submatch.2).toNat
              { card with path := Join [drmPath, name], id := entryId fs name },
            mapSet s.idDict (entryId fs name) (Atoi submatch.2).toNat⟩) ∨
      (cardPattern name = none ∧ s1.idDict = s.idDict ∧
        s1.cards.map (fun c => (c.path, c.id)) = s.cards.map (fun c => (c.path, c.id))) := by
  unfold probeEntry at hstep
  cases hcp : cardPattern name with
  | some submatch =>
    left
    simp only [hcp] at hstep
    by_cases hneg : Atoi submatch.2 < 0
    · simp [hneg] at hstep
    · simp only [hneg, if_false] at hstep
      cases hget : (s.cards ++ [default])[(Atoi submatch.2).toNat]? with
      | none => simp [hget] at hstep
      | some card =>
        simp only [hget, Outcome.returned.injEq] at hstep
        exact ⟨submatch, card, rfl, by omega, hget, hstep.symm⟩
  | none =>
    right
    simp only [hcp] at hstep
    cases hep : eDPPattern name with
    | none =>
      simp only [hep, Outcome.returned.injEq] at hstep
      subst hstep
      exact ⟨rfl, rfl, rfl⟩
    | some eDPSubmatch =>
      simp only [hep] at hstep
      by_cases hneg : Atoi eDPSubmatch.1 < 0
      · simp [hneg] at hstep
      · simp only [hneg, if_false] at hstep
        cases hget : s.cards[(Atoi eDPSubmatch.1).toNat]? with
        | none => simp [hget] at hstep
        | some card =>
          simp only [hget, Outcome.returned.injEq] at hstep
          subst hstep
          refine ⟨rfl, rfl, ?_⟩
          apply List.ext_getElem?
          intro q
          simp only [List.getElem?_map, List.getElem?_set]
          by_cases hq : (Atoi eDPSubmatch.1).toNat = q
          · subst hq
            have hlt : (Atoi eDPSubmatch.1).toNat < s.cards.length :=
              (List.getElem?_eq_some.mp hget).1
            simp [hlt, hget]
          · simp [hq]

/-- A property kept by the body of the loop on every entry of a listing is kept by
the loop over that listing. -/
theorem probeEntries_preserves (fs : SysFs) (Q : Probe → Prop) (names : List String)
    (hbody : ∀ name ∈ names, ∀ s s1, Q s → probeEntry fs s name = Outcome.returned s1 → Q s1) :
    ∀ s p, Q s → probeEntries fs names s = Outcome.returned p → Q p := by
  induction names with
  | nil =>
    intro s p hq hrun
    simp only [probeEntries, Outcome.returned.injEq] at hrun
    subst hrun
    exact hq
  | cons name names ih =>
    intro s p hq hrun
    unfold probeEntries at hrun
    cases hstep : probeEntry fs s name with
    | returned s1 =>
      simp only [hstep] at hrun
      exact ih (fun n hn => hbody n (List.mem_cons_of_mem name hn)) s1 p
        (hbody name (List.mem_cons_self name names) s s1 hq hstep) hrun
    | exited code => simp [hstep] at hrun
    | panicked i n => simp [hstep] at hrun

/-- A run of the loop that returns starts with a run of its body that returns. -/
theorem probeEntries_cons (fs : SysFs) (name : String) (rest : List String) (s p : Probe)
    (hrun : probeEntries fs (name :: rest) s = Outcome.returned p) :
    ∃ s1, probeEntry fs s name = Outcome.returned s1 ∧
      probeEntries fs rest s1 = Outcome.returned p := by
  unfold probeEntries at hrun
  cases hstep : probeEntry fs s name with
  | returned s1 =>
    simp only [hstep] at hrun
    exact ⟨s1, rfl, hrun⟩
  | exited code => simp [hstep] at hrun
  | panicked i n => simp [hstep] at hrun

/-- A run of the loop over a listing that returns is a run over its first part
followed by a run over the rest. -/
theorem probeEntries_append (fs : SysFs) (pre rest : List String) :
    ∀ s p, probeEntries fs (pre ++ rest) s = Outcome.returned p →
      ∃ mid, probeEntries fs pre s = Outcome.returned mid ∧
        probeEntries fs rest mid = Outcome.returned p := by
  induction pre with
  | nil =>
    intro s p hrun
    exact ⟨s, rfl, hrun⟩
  | cons name pre ih =>
    intro s p hrun
    rw [List.cons_append] at hrun
    obtain ⟨s1, hstep, hrest⟩ := probeEntries_cons fs name (pre ++ rest) s p hrun
    obtain ⟨mid, hpre, hmid⟩ := ih s1 p hrest
    refine ⟨mid, ?_, hmid⟩
    rw [probeEntries, hstep]
    exact hpre

/-- The body of the loop keeps `StoredIds`. -/
theorem probeEntry_storedIds (fs : SysFs) (names : List String) (name : String)
    (hname : name ∈ names) (s s1 : Probe) (hinv : StoredIds fs names s)
    (hstep : probeEntry fs s name = Outcome.returned s1) : StoredIds fs names s1 := by
  obtain ⟨hcards, hdict⟩ := hinv
  rcases probeEntry_cases fs s s1 name hstep with
    ⟨submatch, card, hcp, -, -, hs1⟩ | ⟨-, hidx, hmap⟩
  · have hentry : IsEntryId fs names (entryId fs name) := ⟨name, hname, by simp [hcp], rfl⟩
    subst hs1
    constructor
    · intro c hc
      rcases List.mem_or_eq_of_mem_set hc with hc | hc
      · rcases List.mem_append.mp hc with hc | hc
        · exact hcards c hc
        · left
          rw [List.mem_singleton.mp hc]
          rfl
      · right
        rw [hc]
        exact hentry
    · intro id ptr hm
      by_cases hid : id = entryId fs name
      · rw [hid]
        exact hentry
      · rw [mapGet_mapSet_of_ne _ _ _ _ hid] at hm
        exact hdict id ptr hm
  · constructor
    · intro c hc
      have hmem : (c.path, c.id) ∈ s1.cards.map (fun c => (c.path, c.id)) :=
        List.mem_map.mpr ⟨c, hc, rfl⟩
      rw [hmap] at hmem
      obtain ⟨c0, hc0, heq⟩ := List.mem_map.mp hmem
      have hidEq : c0.id = c.id := congrArg Prod.snd heq
      rw [← hidEq]
      exact hcards c0 hc0
    · intro id ptr hm
      rw [hidx] at hm
      exact hdict id ptr hm

/-- A key of the identifier index stays a key through the body of the loop. -/
theorem probeEntry_keeps_key (fs : SysFs) (key : String) (name : String) (s s1 : Probe)
    (hkey : ∃ ptr, mapGet s.idDict key = some ptr)
    (hstep : probeEntry fs s name = Outcome.returned s1) :
    ∃ ptr, mapGet s1.idDict key = some ptr := by
  rcases probeEntry_cases fs s s1 name hstep with
    ⟨submatch, card, -, -, -, hs1⟩ | ⟨-, hidx, -⟩
  · subst hs1
    by_cases hid : key = entryId fs name
    · exact ⟨_, by rw [hid]; exact mapGet_mapSet_self _ _ _⟩
    · obtain ⟨ptr, hptr⟩ := hkey
      exact ⟨ptr, by rw [mapGet_mapSet_of_ne _ _ _ _ hid]; exact hptr⟩
  · rw [hidx]
    exact hkey

/-- The identifier of the record at a position stays through the body of the loop
on an entry that is not a card entry with the number of that position. -/
theorem probeEntry_keeps_record (fs : SysFs) (n : Nat) (id : String) (name : String)
    (s s1 : Probe) (hrec : ∃ c, s.cards[n]? = some c ∧ c.id = id)
    (hother : ∀ submatch, cardPattern name = some submatch → Atoi submatch.2 ≠ (n : Int))
    (hstep : probeEntry fs s name = Outcome.returned s1) :
    ∃ c, s1.cards[n]? = some c ∧ c.id = id := by
  obtain ⟨c, hc, hcid⟩ := hrec
  rcases probeEntry_cases fs s s1 name hstep with
    ⟨submatch, card, hcp, hpos, -, hs1⟩ | ⟨-, -, hmap⟩
  · subst hs1
    have hne : (Atoi submatch.2).toNat ≠ n := by
      have := hother submatch hcp
      omega
    have hlt : n < s.cards.length := (List.getElem?_eq_some.mp hc).1
    refine ⟨c, ?_, hcid⟩
    rw [List.getElem?_set_ne hne, List.getElem?_append_left hlt]
    exact hc
  · have hq : (s.cards.map (fun c => (c.path, c.id)))[n]? = some (c.path, c.id) := by
      simp [List.getElem?_map, hc]
    rw [← hmap, List.getElem?_map] at hq
    cases hs1 : s1.cards[n]? with
    | none => simp [hs1] at hq
    | some c1 =>
      simp only [hs1, Option.map_some', Option.some.injEq, Prod.mk.injEq] at hq
      exact ⟨c1, rfl, hq.2.trans hcid⟩

/-! ## Device Prober: records in listing order, and the last identifier wins -/

/-- What the body of the loop does on a listing in which no two card entries carry
the same number: a card entry appends its record and points the identifier index
to it; any other entry leaves the index, and the path and identifier of every
record, as they are. -/
theorem probeEntry_shape (fs : SysFs) (s s1 : Probe) (seen : List Int) (name : String)
    (hseen : seen = List.map Int.ofNat (List.range s.cards.length))
    (hnd : (seen ++ cardNumbers [name]).Nodup)
    (hstep : probeEntry fs s name = Outcome.returned s1) :
    ((cardPattern name).isSome = true ∧
        s1 = ⟨s.cards ++ [⟨Join [drmPath, name], false, entryId fs name⟩],
          mapSet s.idDict (entryId fs name) s.cards.length⟩) ∨
      ((cardPattern name).isSome = false ∧ s1.idDict = s.idDict ∧
        s1.cards.map (fun c => (c.path, c.id)) = s.cards.map (fun c => (c.path, c.id))) := by
  unfold probeEntry at hstep
  cases hcp : cardPattern name with
  | some submatch =>
    left
    have hnum : cardNumbers [name] = [Atoi submatch.2] := by simp [cardNumbers, hcp]
    rw [hnum] at hnd
    simp only [hcp] at hstep
    by_cases hneg : Atoi submatch.2 < 0
    · simp [hneg] at hstep
    · simp only [hneg, if_false] at hstep
      cases hget : (s.cards ++ [default])[(Atoi submatch.2).toNat]? with
      | none => simp [hget] at hstep
      | some card =>
        obtain ⟨hi, hcard⟩ := fresh_index s.cards seen _ card hseen hnd hneg hget
        have hiNat : (Atoi submatch.2).toNat = s.cards.length := by omega
        simp only [hget, Outcome.returned.injEq] at hstep
        subst hstep
        subst hcard
        simp only [hiNat, List.set_append_right _ _ (Nat.le_refl _), Nat.sub_self,
          List.set_cons_zero]
        exact ⟨rfl, rfl⟩
  | none =>
    right
    simp only [hcp] at hstep
    cases hep : eDPPattern name with
    | none =>
      simp only [hep, Outcome.returned.injEq] at hstep
      subst hstep
      exact ⟨rfl, rfl, rfl⟩
    | some eDPSubmatch =>
      simp only [hep] at hstep
      by_cases hneg : Atoi eDPSubmatch.1 < 0
      · simp [hneg] at hstep
      · simp only [hneg, if_false] at hstep
        cases hget : s.cards[(Atoi eDPSubmatch.1).toNat]? with
        | none => simp [hget] at hstep
        | some card =>
          simp only [hget, Outcome.returned.injEq] at hstep
          subst hstep
          refine ⟨rfl, rfl, ?_⟩
          apply List.ext_getElem?
          intro q
          simp only [List.getElem?_map, List.getElem?_set]
          by_cases hq : (Atoi eDPSubmatch.1).toNat = q
          · subst hq
            have hlt : (Atoi eDPSubmatch.1).toNat < s.cards.length :=
              (List.getElem?_eq_some.mp hget).1
            simp [hlt, hget]
          · simp [hq]

/-- The two invariants on the records are kept by the body of the loop. -/
theorem probeEntry_records (fs : SysFs) (s s1 : Probe) (done : List String) (name : String)
    (hinv : ProbeInv s (cardNumbers done)) (hrec : ProbeRecords fs s done)
    (hlast : ProbeLast s) (hnd : (cardNumbers done ++ cardNumbers [name]).Nodup)
    (hstep : probeEntry fs s name = Outcome.returned s1) :
    ProbeRecords fs s1 (done ++ [name]) ∧ ProbeLast s1 := by
  obtain ⟨hseen, hdict, -⟩ := hinv
  rcases probeEntry_shape fs s s1 _ name hseen hnd hstep with ⟨hcp, hs1⟩ | ⟨hcp, hidx, hmap⟩
  · subst hs1
    constructor
    · unfold ProbeRecords at hrec ⊢
      simp [cardEntries, List.filter_append, hcp, hrec]
    · intro id ptr hm q c hq hc
      by_cases hid : id = entryId fs name
      · subst hid
        rw [mapGet_mapSet_self] at hm
        cases hm
        have hlt := (List.getElem?_eq_some.mp hc).1
        simp at hlt
        omega
      · rw [mapGet_mapSet_of_ne _ _ _ _ hid] at hm
        by_cases hqlt : q < s.cards.length
        · rw [List.getElem?_append_left hqlt] at hc
          exact hlast id ptr hm q c hq hc
        · have hlt := (List.getElem?_eq_some.mp hc).1
          simp at hlt
          have hqeq : q = s.cards.length := by omega
          subst hqeq
          rw [List.getElem?_append_right (Nat.le_refl _)] at hc
          simp at hc
          rw [← hc]
          exact fun h => hid h.symm
  · constructor
    · unfold ProbeRecords at hrec ⊢
      have hcp2 : (cardPattern name).isSome = false := hcp
      simp [cardEntries, List.filter_append, hcp2, hmap, hrec]
    · intro id ptr hm q c hq hc
      rw [hidx] at hm
      have hq2 : (s1.cards.map (fun c => (c.path, c.id)))[q]? = some (c.path, c.id) := by
        simp [List.getElem?_map, hc]
      rw [hmap, List.getElem?_map] at hq2
      cases hsq : s.cards[q]? with
      | none => simp [hsq] at hq2
      | some c2 =>
        simp only [hsq, Option.map_some', Option.some.injEq, Prod.mk.injEq] at hq2
        rw [← hq2.2]
        exact hlast id ptr hm q c2 hq hsq

/-- The two invariants on the records are kept by the loop. -/
theorem probeEntries_records (fs : SysFs) (names : List String) :
    ∀ (s p : Probe) (done : List String), ProbeInv s (cardNumbers done) →
      ProbeRecords fs s done → ProbeLast s →
      (cardNumbers (done ++ names)).Nodup →
      probeEntries fs names s = Outcome.returned p →
      ProbeRecords fs p (done ++ names) ∧ ProbeLast p := by
  induction names with
  | nil =>
    intro s p done _ hrec hlast _ hrun
    simp only [probeEntries, Outcome.returned.injEq] at hrun
    subst hrun
    simpa using ⟨hrec, hlast⟩
  | cons name names ih =>
    intro s p done hinv hrec hlast hnd hrun
    have hsplit : cardNumbers (done ++ name :: names)
        = cardNumbers done ++ cardNumbers [name] ++ cardNumbers names := by
      have : done ++ name :: names = done ++ [name] ++ names := by simp
      rw [this]
      unfold cardNumbers
      rw [List.filterMap_append, List.filterMap_append]
    have hone : cardNumbers (done ++ [name]) = cardNumbers done ++ cardNumbers [name] := by
      unfold cardNumbers
      rw [List.filterMap_append]
    rw [hsplit] at hnd
    have hnd1 : (cardNumbers done ++ cardNumbers [name]).Nodup := (List.nodup_append.mp hnd).1
    unfold probeEntries at hrun
    cases hstep : probeEntry fs s name with
    | returned s1 =>
      simp only [hstep] at hrun
      have hinv1 := probeEntry_inv fs s s1 _ name hinv hnd1 hstep
      obtain ⟨hrec1, hlast1⟩ := probeEntry_records fs s s1 done name hinv hrec hlast hnd1 hstep
      rw [← hone] at hinv1
      have hthree : cardNumbers (done ++ [name] ++ names)
          = cardNumbers done ++ cardNumbers [name] ++ cardNumbers names := by
        unfold cardNumbers
        rw [List.filterMap_append, List.filterMap_append]
      have := ih s1 p (done ++ [name]) hinv1 hrec1 hlast1 (by rw [hthree]; exact hnd) hrun
      simpa using this
    | exited code => simp [hstep] at hrun
    | panicked i n => simp [hstep] at hrun

/-- On a listing in which no two card entries carry the same number, a probe that
completes returns one record for each card entry, in listing order, with the path
and the identifier of that entry, and no record placed after the one an entry of
the identifier index points to has the identifier of that entry. -/
theorem GetSystemCards_records (fs : SysFs) (probe : Probe)
    (hnd : (cardNumbers (fs.readDir drmPath)).Nodup)
    (hp : GetSystemCards fs = Outcome.returned probe) :
    ProbeRecords fs probe (fs.readDir drmPath) ∧ ProbeLast probe := by
  have hinit : ProbeInv ⟨[], []⟩ (cardNumbers []) := by
    refine ⟨by simp [cardNumbers], ?_, ?_⟩
    · intro id ptr hm
      simp [mapGet] at hm
    · intro c hc
      simp at hc
  have hrec : ProbeRecords fs ⟨[], []⟩ [] := by simp [ProbeRecords, cardEntries]
  have hlast : ProbeLast ⟨[], []⟩ := by
    intro id ptr hm
    simp [mapGet] at hm
  have := probeEntries_records fs (fs.readDir drmPath) ⟨[], []⟩ probe [] hinit hrec hlast
    (by simpa using hnd) hp
  simpa using this

/-- Claim C17, as amended: on a listing in which no two card entries carry the same
number, a probe that completes returns one record for each card entry, in listing order, so that
two entries with the same identifier both keep their record; every value of the
identifier index is a record of the list whose identifier is its key, and it is
the last record with that identifier: of two records with the same identifier
the index never points to the earlier one. -/
theorem GetSystemCards_last_wins (fs : SysFs) (probe : Probe)
    (hnd : (cardNumbers (fs.readDir drmPath)).Nodup)
    (hp : GetSystemCards fs = Outcome.returned probe) :
    probe.cards.map (fun c => (c.path, c.id))
        = (cardEntries (fs.readDir drmPath)).map
            (fun name => (Join [drmPath, name], entryId fs name)) ∧
      (∀ id ptr, mapGet probe.idDict id = some ptr →
        ∃ c, probe.cards[ptr]? = some c ∧ c.id = id ∧
          ∀ q c2, ptr < q → probe.cards[q]? = some c2 → c2.id ≠ id) ∧
      (∀ a b ca cb, a < b → probe.cards[a]? = some ca → probe.cards[b]? = some cb →
        ca.id = cb.id →
        ∃ ptr c, mapGet probe.idDict cb.id = some ptr ∧ b ≤ ptr ∧
          probe.cards[ptr]? = some c ∧ c.id = cb.id) := by
  obtain ⟨hdict, hreg⟩ := GetSystemCards_index fs probe hnd hp
  obtain ⟨hrec, hlast⟩ := GetSystemCards_records fs probe hnd hp
  refine ⟨hrec, ?_, ?_⟩
  · intro id ptr hm
    obtain ⟨c, hc, hcid⟩ := hdict id ptr hm
    exact ⟨c, hc, hcid, hlast id ptr hm⟩
  · intro a b ca cb _ _ hb _
    obtain ⟨ptr, hptr⟩ := hreg cb (List.getElem?_mem hb)
    obtain ⟨c, hc, hcid⟩ := hdict _ ptr hptr
    refine ⟨ptr, c, hptr, ?_, hc, hcid⟩
    by_contra hlt
    exact hlast _ ptr hptr b cb (by omega) hb rfl

/-- Claim C17, as amended, on the host with two cards of the same model: both records are
returned and the identifier index points to the second. -/
theorem GetSystemCards_last_wins_witness :
    (cardNumbers (twinFs.readDir drmPath)).Nodup ∧
      GetSystemCards twinFs
        = Outcome.returned
            ⟨[⟨"/sys/class/drm/card0", false, "10de:2204"⟩,
                ⟨"/sys/class/drm/card1", false, "10de:2204"⟩],
              [("10de:2204", 1)]⟩ ∧
      ∃ ptr c, mapGet [("10de:2204", 1)] "10de:2204" = some ptr ∧ 1 ≤ ptr ∧
        [(⟨"/sys/class/drm/card0", false, "10de:2204"⟩ : Card),
            ⟨"/sys/class/drm/card1", false, "10de:2204"⟩][ptr]? = some c ∧
        c.id = "10de:2204" :=
  ⟨by decide, by decide,
    (GetSystemCards_last_wins twinFs
      ⟨[⟨"/sys/class/drm/card0", false, "10de:2204"⟩,
          ⟨"/sys/class/drm/card1", false, "10de:2204"⟩],
        [("10de:2204", 1)]⟩ (by decide) (by decide)).2.2 0 1
      ⟨"/sys/class/drm/card0", false, "10de:2204"⟩
      ⟨"/sys/class/drm/card1", false, "10de:2204"⟩ (by decide) rfl rfl rfl⟩

/-! ## Orchestrator: explicit directives bypass the policy -/

/-- `ChooseCard` reads neither the renderer nor the flag of the translation layer:
it carries them over, with the same effects. -/
theorem ChooseCard_renderer {Rest : Type} (fs : SysFs) (bcfg : Binary Rest) (c : Card)
    (r : String) (x : Bool) :
    ChooseCard fs { bcfg with Renderer := r, Dxvk := x } c
      = ({ (ChooseCard fs bcfg c).1 with Renderer := r, Dxvk := x },
          (ChooseCard fs bcfg c).2) :=
  rfl

/-- `ChooseCard` reads the path and the identifier of the card only. -/
theorem ChooseCard_card {Rest : Type} (fs1 fs2 : SysFs) (bcfg : Binary Rest) (c1 c2 : Card)
    (hfs : fs1.evalSymlinks = fs2.evalSymlinks) (hpath : c1.path = c2.path)
    (hid : c1.id = c2.id) : ChooseCard fs1 bcfg c1 = ChooseCard fs2 bcfg c2 := by
  unfold ChooseCard
  rw [hfs, hpath, hid]

/-- No effect of `ChooseCard` is a log line of the policy. -/
theorem ChooseCard_no_policy_event {Rest : Type} (fs : SysFs) (bcfg : Binary Rest) (c : Card)
    (e : Event) (he : e ∈ (ChooseCard fs bcfg c).2) : isPolicyEvent e = false := by
  have hset : ∀ (env : Environment) (k v : String) (e : Event),
      e ∈ (setIfUndefined env k v).2 → isPolicyEvent e = false := by
    intro env k v e he
    unfold setIfUndefined at he
    split at he
    · simp only [List.mem_cons, List.mem_singleton, List.not_mem_nil, or_false] at he
      rcases he with rfl | rfl <;> rfl
    · simp only [List.mem_cons, List.mem_singleton, List.not_mem_nil, or_false] at he
      rcases he with rfl | rfl <;> rfl
  unfold ChooseCard at he
  simp only [List.mem_append, List.mem_singleton] at he
  rcases he with ((he | he) | he) | he
  · exact hset _ _ _ e he
  · exact hset _ _ _ e he
  · split at he
    · exact hset _ _ _ e he
    · exact hset _ _ _ e he
  · rw [he]
    rfl

/-- The run of `SetupPrimeOffload` on an explicit directive, after a probe that
returned, in terms of the device the directive designates. -/
theorem SetupPrimeOffload_explicit {Rest : Type} (fs : SysFs) (bcfg : Binary Rest)
    (probe : Probe) (hp : GetSystemCards fs = Outcome.returned probe)
    (h1 : bcfg.ForcedGpu ≠ "") (h2 : bcfg.ForcedGpu ≠ "integrated")
    (h3 : bcfg.ForcedGpu ≠ "prime-discrete") :
    SetupPrimeOffload fs bcfg
      = match lookupDirective probe bcfg.ForcedGpu with
        | some c => ⟨(ChooseCard fs bcfg c).2, Outcome.returned (ChooseCard fs bcfg c).1⟩
        | none =>
          if Contains bcfg.ForcedGpu ":" then
            match mapGet probe.idDict bcfg.ForcedGpu with
            | none => ⟨[Event.logNoSuchId bcfg.ForcedGpu], Outcome.exited 1⟩
            | some ptr => ⟨[], Outcome.panicked ptr probe.cards.length⟩
          else ⟨[], Outcome.panicked (Atoi bcfg.ForcedGpu) probe.cards.length⟩ := by
  unfold SetupPrimeOffload lookupDirective
  simp only [h1, h2, h3, hp, if_false]
  by_cases hcolon : Contains bcfg.ForcedGpu ":" = true
  · simp only [hcolon, if_true]
    cases hm : mapGet probe.idDict bcfg.ForcedGpu with
    | none => simp
    | some ptr =>
      cases hc : probe.cards[ptr]? with
      | none => simp [hc]
      | some c => simp [hc, returnChoice]
  · simp only [hcolon]
    by_cases hneg : Atoi bcfg.ForcedGpu < 0
    · simp [hneg]
    · cases hc : probe.cards[(Atoi bcfg.ForcedGpu).toNat]? with
      | none => simp [hneg, hc]
      | some c => simp [hneg, hc, returnChoice]

/-- Claim C19: for a directive that is neither empty nor a role name, the run of
`SetupPrimeOffload` has the same effects, and ends in the same way, for two
configurations that differ in the renderer and the translation-layer flag only
(a returned configuration carries the renderer and the flag it was given); no log
line of the policy is written; and once the probe has returned, the run is the
choice of the device the directive designates, which depends on the path and the
identifier of that device only: not on its internal-panel flag nor on that of any
other device, and not on the other devices of the list. -/
theorem SetupPrimeOffload_explicit_bypasses_policy {Rest : Type} (fs : SysFs)
    (bcfg : Binary Rest) (h1 : bcfg.ForcedGpu ≠ "") (h2 : bcfg.ForcedGpu ≠ "integrated")
    (h3 : bcfg.ForcedGpu ≠ "prime-discrete") :
    (∀ (r : String) (x : Bool),
        (SetupPrimeOffload fs { bcfg with Renderer := r, Dxvk := x }).trace
            = (SetupPrimeOffload fs bcfg).trace ∧
          (SetupPrimeOffload fs { bcfg with Renderer := r, Dxvk := x }).out
            = Outcome.map (fun b => { b with Renderer := r, Dxvk := x })
                (SetupPrimeOffload fs bcfg).out) ∧
      (∀ e ∈ (SetupPrimeOffload fs bcfg).trace, isPolicyEvent e = false) ∧
      (∀ probe c, GetSystemCards fs = Outcome.returned probe →
        lookupDirective probe bcfg.ForcedGpu = some c →
        SetupPrimeOffload fs bcfg
          = ⟨(ChooseCard fs bcfg c).2, Outcome.returned (ChooseCard fs bcfg c).1⟩) ∧
      (∀ fs2 probe probe2 c c2, fs2.evalSymlinks = fs.evalSymlinks →
        GetSystemCards fs = Outcome.returned probe →
        GetSystemCards fs2 = Outcome.returned probe2 →
        lookupDirective probe bcfg.ForcedGpu = some c →
        lookupDirective probe2 bcfg.ForcedGpu = some c2 →
        c2.path = c.path → c2.id = c.id →
        SetupPrimeOffload fs2 bcfg = SetupPrimeOffload fs bcfg) := by
  have hsel : ∀ (fs0 : SysFs) probe c, GetSystemCards fs0 = Outcome.returned probe →
      lookupDirective probe bcfg.ForcedGpu = some c →
      SetupPrimeOffload fs0 bcfg
        = ⟨(ChooseCard fs0 bcfg c).2, Outcome.returned (ChooseCard fs0 bcfg c).1⟩ := by
    intro fs0 probe c hp hl
    rw [SetupPrimeOffload_explicit fs0 bcfg probe hp h1 h2 h3, hl]
  refine ⟨?_, ?_, hsel fs, ?_⟩
  · intro r x
    cases hp : GetSystemCards fs with
    | exited code => simp [SetupPrimeOffload, h1, hp, Outcome.map]
    | panicked i n => simp [SetupPrimeOffload, h1, hp, Outcome.map]
    | returned probe =>
      rw [SetupPrimeOffload_explicit fs bcfg probe hp h1 h2 h3,
        SetupPrimeOffload_explicit fs { bcfg with Renderer := r, Dxvk := x } probe hp h1 h2 h3]
      cases hl : lookupDirective probe bcfg.ForcedGpu with
      | some c => simp [hl, ChooseCard_renderer, Outcome.map]
      | none =>
        simp only [hl]
        split
        · split <;> simp [Outcome.map]
        · simp [Outcome.map]
  · intro e he
    cases hp : GetSystemCards fs with
    | exited code => simp [SetupPrimeOffload, h1, hp] at he
    | panicked i n => simp [SetupPrimeOffload, h1, hp] at he
    | returned probe =>
      rw [SetupPrimeOffload_explicit fs bcfg probe hp h1 h2 h3] at he
      cases hl : lookupDirective probe bcfg.ForcedGpu with
      | some c =>
        simp only [hl] at he
        exact ChooseCard_no_policy_event fs bcfg c e he
      | none =>
        simp only [hl] at he
        split at he
        · split at he
          · simp only [List.mem_singleton] at he
            rw [he]
            rfl
          · simp at he
        · simp at he
  · intro fs2 probe probe2 c c2 hfs hp hp2 hl hl2 hpath hid
    rw [hsel fs probe c hp hl, hsel fs2 probe2 c2 hp2 hl2,
      ChooseCard_card fs2 fs bcfg c2 c hfs hpath hid]

/-- Claim C19 on the workstation (three cards) with the index directive `2`: the
run with the OpenGL renderer has the effects of the run with the Vulkan renderer
and the translation layer, and it chooses the third card. -/
theorem SetupPrimeOffload_explicit_bypasses_policy_witness :
    (sampleConfig "OpenGL" "2").ForcedGpu ≠ "" ∧
      (sampleConfig "OpenGL" "2").ForcedGpu ≠ "integrated" ∧
      (sampleConfig "OpenGL" "2").ForcedGpu ≠ "prime-discrete" ∧
      (SetupPrimeOffload workstationFs
          { sampleConfig "OpenGL" "2" with Renderer := "Vulkan", Dxvk := true }).trace
        = (SetupPrimeOffload workstationFs (sampleConfig "OpenGL" "2")).trace ∧
      Event.logChoseCard "/sys/class/drm/card2" "10de:2204"
        ∈ (SetupPrimeOffload workstationFs (sampleConfig "OpenGL" "2")).trace :=
  ⟨by decide, by decide, by decide,
    ((SetupPrimeOffload_explicit_bypasses_policy workstationFs (sampleConfig "OpenGL" "2")
      (by decide) (by decide) (by decide)).1 "Vulkan" true).1,
    by decide⟩

/-! ## Device Prober: the identifiers `GetSystemCards` returns -/

/-- The form of the identifier built for a card entry, whatever the two attribute
contents: no newline, and no upper-case ASCII letter but for the image in the
case table of a rune outside ASCII. -/
theorem isEntryId_form (fs : SysFs) (names : List String) (id : String)
    (h : id = "" ∨ IsEntryId fs names id) :
    '\n' ∉ id.data ∧
      (∀ ch ∈ id.data, ch.isUpper = true → ∃ r, 127 < r.toNat ∧ fs.caseTable r = ch) ∧
      ((∀ r, 127 < r.toNat → (fs.caseTable r).isUpper = false) →
        ∀ ch ∈ id.data, ch.isUpper = false) := by
  have hform : '\n' ∉ id.data ∧
      (∀ ch ∈ id.data, ch.isUpper = true → ∃ r, 127 < r.toNat ∧ fs.caseTable r = ch) := by
    rcases h with h | ⟨name, -, -, h⟩
    · subst h
      exact ⟨by simp, fun ch hch => by simp at hch⟩
    · subst h
      exact ⟨deviceId_no_newline _ _ _, fun ch hch hup => deviceId_upper _ _ _ ch hch hup⟩
  refine ⟨hform.1, hform.2, ?_⟩
  intro htable ch hch
  cases hup : ch.isUpper with
  | false => rfl
  | true =>
    obtain ⟨r, hr, hrch⟩ := hform.2 ch hch hup
    have := htable r hr
    rw [hrch, hup] at this
    cases this

/-- Claim C13: in every run of `GetSystemCards` that returns, the identifier of
every returned record, and every key of the identifier index, is the one built
from the two attribute contents of a card entry of the listing (or is empty, for
a record no entry wrote to); whatever the contents, it holds no newline, and no
upper-case ASCII letter either, as the lower-case mapping of the Unicode tables
yields none.  For every card entry of the listing, the run stores, in the record
at the position given by the number of the entry, the identifier built from its
two contents; that identifier is a key of the returned index; it is still in that
record on return when no later entry carries the same number; and when the
vendor content is `0x`, `V` and a newline and the device content is `0x`, `D`
and a newline, with `V` and `D` made of hexadecimal digits in any letter case,
it is the lowered `V`, a colon and the lowered `D`. -/
theorem GetSystemCards_identifier (fs : SysFs) (probe : Probe)
    (hp : GetSystemCards fs = Outcome.returned probe) :
    (∀ c ∈ probe.cards, c.id = "" ∨ IsEntryId fs (fs.readDir drmPath) c.id) ∧
      (∀ id ptr, mapGet probe.idDict id = some ptr → IsEntryId fs (fs.readDir drmPath) id) ∧
      (∀ id, (id = "" ∨ IsEntryId fs (fs.readDir drmPath) id) →
        '\n' ∉ id.data ∧
          (∀ ch ∈ id.data, ch.isUpper = true → ∃ r, 127 < r.toNat ∧ fs.caseTable r = ch) ∧
          ((∀ r, 127 < r.toNat → (fs.caseTable r).isUpper = false) →
            ∀ ch ∈ id.data, ch.isUpper = false)) ∧
      (∀ pre name post submatch, fs.readDir drmPath = pre ++ name :: post →
        cardPattern name = some submatch →
        ∃ s s1 c, probeEntries fs pre ⟨[], []⟩ = Outcome.returned s ∧
          probeEntry fs s name = Outcome.returned s1 ∧
          probeEntries fs post s1 = Outcome.returned probe ∧
          s1.cards[(Atoi submatch.2).toNat]? = some c ∧
          c.id = deviceId fs.caseTable
            (fs.readFile (Join [Join [drmPath, name], "device/vendor"]))
            (fs.readFile (Join [Join [drmPath, name], "device/device"])) ∧
          (∃ ptr, mapGet probe.idDict c.id = some ptr) ∧
          (Atoi submatch.2 ∉ cardNumbers post →
            ∃ c2, probe.cards[(Atoi submatch.2).toNat]? = some c2 ∧ c2.id = c.id) ∧
          (∀ V D : String,
            fs.readFile (Join [Join [drmPath, name], "device/vendor"]) = "0x" ++ V ++ "\n" →
            fs.readFile (Join [Join [drmPath, name], "device/device"]) = "0x" ++ D ++ "\n" →
            (∀ ch ∈ V.data, isHexDigit ch = true) → (∀ ch ∈ D.data, isHexDigit ch = true) →
            c.id = ToLower fs.caseTable V ++ ":" ++ ToLower fs.caseTable D ∧
              ToLower fs.caseTable V = String.mk (V.data.map Char.toLower) ∧
              ToLower fs.caseTable D = String.mk (D.data.map Char.toLower))) := by
  have hstored : StoredIds fs (fs.readDir drmPath) probe := by
    refine probeEntries_preserves fs (StoredIds fs (fs.readDir drmPath)) (fs.readDir drmPath)
      (fun name hname s s1 hq hstep => probeEntry_storedIds fs _ name hname s s1 hq hstep)
      ⟨[], []⟩ probe ?_ hp
    constructor
    · intro c hc
      simp at hc
    · intro id ptr hm
      simp [mapGet] at hm
  refine ⟨hstored.1, hstored.2, fun id hid => isEntryId_form fs _ id hid, ?_⟩
  intro pre name post submatch hlist hcp
  unfold GetSystemCards at hp
  rw [hlist] at hp
  obtain ⟨s, hpre, hrest⟩ := probeEntries_append fs pre (name :: post) _ _ hp
  obtain ⟨s1, hstep, hpost⟩ := probeEntries_cons fs name post s probe hrest
  obtain ⟨c, hc, -, hid, hkey⟩ := probeEntry_card fs s s1 name submatch hcp hstep
  have hpos : 0 ≤ Atoi submatch.2 := by
    rcases probeEntry_cases fs s s1 name hstep with ⟨sub2, card, hcp2, h0, -, -⟩ | ⟨hnone, -, -⟩
    · rw [hcp] at hcp2
      cases hcp2
      exact h0
    · rw [hcp] at hnone
      cases hnone
  refine ⟨s, s1, c, hpre, hstep, hpost, hc, hid, ?_, ?_, ?_⟩
  · rw [hid]
    exact probeEntries_preserves fs (fun q => ∃ ptr, mapGet q.idDict (entryId fs name) = some ptr)
      post (fun later _ q q1 hq hq1 => probeEntry_keeps_key fs _ later q q1 hq hq1)
      s1 probe ⟨_, hkey⟩ hpost
  · intro hlast
    refine probeEntries_preserves fs
      (fun q => ∃ c2, q.cards[(Atoi submatch.2).toNat]? = some c2 ∧ c2.id = c.id)
      post ?_ s1 probe ⟨c, hc, rfl⟩ hpost
    intro later hlater q q1 hq hq1
    refine probeEntry_keeps_record fs _ c.id later q q1 hq ?_ hq1
    intro sub2 hcp2 heq
    apply hlast
    unfold cardNumbers
    refine List.mem_filterMap.mpr ⟨later, hlater, ?_⟩
    rw [hcp2]
    simp only [Option.map_some', Option.some.injEq]
    rw [heq]
    exact Int.toNat_of_nonneg hpos
  · intro V D hv hd hV hD
    refine ⟨?_, ?_, ?_⟩
    · rw [hid]
      unfold entryId
      rw [hv, hd]
      exact deviceId_hex fs.caseTable V D hV hD
    · unfold ToLower
      rw [(lowered_hex fs.caseTable V.data hV).1]
    · unfold ToLower
      rw [(lowered_hex fs.caseTable D.data hD).1]

/-- Claim C13 on the laptop: the record of `card0`, whose attribute contents are
`0x8086` and `0x9A49`, each followed by a newline, is returned with the
identifier `8086:9a49`. -/
theorem GetSystemCards_identifier_witness :
    GetSystemCards laptopFs
        = Outcome.returned ⟨[laptopCard0, laptopCard1], [("10de:1f99", 1), ("8086:9a49", 0)]⟩ ∧
      ∃ c2, [laptopCard0, laptopCard1][0]? = some c2 ∧ c2.id = "8086:9a49" :=
  ⟨by decide,
    match (GetSystemCards_identifier laptopFs
      ⟨[laptopCard0, laptopCard1], [("10de:1f99", 1), ("8086:9a49", 0)]⟩ (by decide)).2.2.2
      [] "card0" ["card0-DP-1", "card0-eDP-1", "card1", "renderD128", "renderD129", "version"]
      ("card0", "0") (by decide) (by decide) with
    | ⟨_, _, _, _, _, _, _, _, _, hlast, hhex⟩ =>
      match hlast (by decide) with
      | ⟨c2, hc2, hid2⟩ =>
        ⟨c2, hc2, hid2.trans ((hhex "8086" "9A49" (by decide) (by decide) (by decide)
          (by decide)).1.trans (by decide))⟩⟩

/-- Outside ASCII the identifier is lowered through the case table: the contents
`0xÄB` and `0x12`, each followed by a newline, give `äb:12`. -/
theorem deviceId_outside_ascii :
    deviceId sampleCaseTable (String.mk ['0', 'x', Char.ofNat 0xC4, 'B', '\n']) "0x12\n"
      = String.mk [Char.ofNat 0xE4, 'b', ':', '1', '2'] := by
  decide

/-! ## Listings in which two card entries carry the same number -/

/-- Claim C9 as stated fails: on the listing `card0`, `card00` the probe completes;
the second entry carries the number 0 again, so it overwrites the record of the
first and leaves a second, empty record.  No returned record has the identifier
`8086:9a49`, yet with that directive `SetupPrimeOffload` does not exit: it
follows the entry the first card entry left in the identifier index and returns
what `ChooseCard` returns for the record whose identifier is `10de:1f99`. -/
theorem SetupPrimeOffload_identifier_counterexample :
    GetSystemCards repeatedNumberFs
        = Outcome.returned
            ⟨[⟨"/sys/class/drm/card00", false, "10de:1f99"⟩, ⟨"", false, ""⟩],
              [("10de:1f99", 0), ("8086:9a49", 0)]⟩ ∧
      Contains (sampleConfig "OpenGL" "8086:9a49").ForcedGpu ":" = true ∧
      (∀ c ∈ [(⟨"/sys/class/drm/card00", false, "10de:1f99"⟩ : Card), ⟨"", false, ""⟩],
        c.id ≠ "8086:9a49") ∧
      (SetupPrimeOffload repeatedNumberFs (sampleConfig "OpenGL" "8086:9a49")).out
        ≠ Outcome.exited 1 ∧
      (SetupPrimeOffload repeatedNumberFs (sampleConfig "OpenGL" "8086:9a49")).out
        = Outcome.returned (ChooseCard repeatedNumberFs (sampleConfig "OpenGL" "8086:9a49")
            ⟨"/sys/class/drm/card00", false, "10de:1f99"⟩).1 ∧
      Event.envSet "DRI_PRIME" "10de:1f99"
        ∈ (SetupPrimeOffload repeatedNumberFs (sampleConfig "OpenGL" "8086:9a49")).trace := by
  decide

/-- Claim C17 as stated fails: on the listing `card0`, `version`, `xcard0` the probe
completes; the last entry carries the number 0 again and overwrites the record of
`card0`.  The identifier index still has the key `8086:9a49`, and its value is
the position of a record whose identifier is `10de:1f99`; the two card entries
leave one written record and an empty one. -/
theorem GetSystemCards_last_wins_counterexample :
    GetSystemCards strayNameFs
        = Outcome.returned
            ⟨[⟨"/sys/class/drm/xcard0", false, "10de:1f99"⟩, ⟨"", false, ""⟩],
              [("10de:1f99", 0), ("8086:9a49", 0)]⟩ ∧
      mapGet [("10de:1f99", 0), ("8086:9a49", 0)] "8086:9a49" = some 0 ∧
      [(⟨"/sys/class/drm/xcard0", false, "10de:1f99"⟩ : Card), ⟨"", false, ""⟩][0]?
        = some ⟨"/sys/class/drm/xcard0", false, "10de:1f99"⟩ ∧
      (⟨"/sys/class/drm/xcard0", false, "10de:1f99"⟩ : Card).id ≠ "8086:9a49" ∧
      ¬ (cardNumbers (strayNameFs.readDir drmPath)).Nodup := by
  decide

end Vinegar
